import Mathlib

set_option linter.unusedVariables false

/-!
Verification of the solar position calculator in `angle.py` (function
`solar_angle`).  The program is a single pure function built from
calendar-day arithmetic (Python `datetime`) and a straight-line chain of
trigonometric formulas (NOAA / Meeus solar position algorithm).

Two shallow embeddings are developed:

* a total embedding over `ℝ` (`solar_angleCore`, wrapped by `solar_angle`
  which models the `datetime.datetime(year, month, day)` validity check as
  an `Option`), used for the functional-correctness claims; every column of
  the NOAA spreadsheet that the source computes is a named definition,
  mirroring the corresponding source line;

* a checked embedding (`solar_angleQ`) in which every inverse-trigonometric
  application is guarded by its domain `[-1, 1]` and every division and
  tangent by a non-vanishing denominator, a `none` result standing for the
  NaN / domain-error outcome that exact real arithmetic would signal there.
  This model makes the propagation (or non-propagation) of domain errors
  observable.
-/

open Real

/-! ## Calendar model: `datetime.datetime(year, month, day)`.

Python's `datetime` accepts years 1..9999 and proleptic-Gregorian valid
month/day combinations, raising `ValueError` otherwise.  `(date1 - date2).days`
is the difference of proleptic-Gregorian ordinals. -/

def isLeapYear (y : ℤ) : Prop := (y % 4 = 0 ∧ ¬ y % 100 = 0) ∨ y % 400 = 0

instance (y : ℤ) : Decidable (isLeapYear y) := by unfold isLeapYear; infer_instance

def daysInMonth (y m : ℤ) : ℤ :=
  if m = 2 then (if isLeapYear y then 29 else 28)
  else if m = 4 ∨ m = 6 ∨ m = 9 ∨ m = 11 then 30
  else 31

def isValidDate (y m d : ℤ) : Prop :=
  1 ≤ y ∧ y ≤ 9999 ∧ 1 ≤ m ∧ m ≤ 12 ∧ 1 ≤ d ∧ d ≤ daysInMonth y m

instance (y m d : ℤ) : Decidable (isValidDate y m d) := by
  unfold isValidDate; infer_instance

/-- Days in the months strictly before month `m` of a non-leap year. -/
def daysBeforeMonth (m : ℤ) : ℤ :=
  if m ≤ 1 then 0 else if m = 2 then 31 else if m = 3 then 59 else if m = 4 then 90
  else if m = 5 then 120 else if m = 6 then 151 else if m = 7 then 181 else if m = 8 then 212
  else if m = 9 then 243 else if m = 10 then 273 else if m = 11 then 304 else 334

/-- Proleptic Gregorian ordinal (as `datetime.date.toordinal`):
0001-01-01 is day 1. -/
def toOrdinal (y m d : ℤ) : ℤ :=
  365 * (y - 1) + (y - 1) / 4 - (y - 1) / 100 + (y - 1) / 400
    + daysBeforeMonth m + (if 3 ≤ m ∧ isLeapYear y then 1 else 0) + d

/-- `(datetime.datetime(y, m, d) - datetime.datetime(1899, 12, 31)).days`. -/
def daysSinceRef (y m d : ℤ) : ℤ := toOrdinal y m d - toOrdinal 1899 12 31

/-- The calendar day following `(y, m, d)`. -/
def nextDay (y m d : ℤ) : ℤ × ℤ × ℤ :=
  if d < daysInMonth y m then (y, m, d + 1)
  else if m < 12 then (y, m + 1, 1)
  else (y + 1, 1, 1)

/-! ## The NOAA spreadsheet columns (total model over `ℝ`).

Each definition below is the translation of one line of `solar_angle`;
`t` always stands for the Julian-century value. -/

noncomputable section

/-- `np.deg2rad`. -/
def deg2rad (x : ℝ) : ℝ := x * (π / 180)

/-- `np.rad2deg`. -/
def rad2deg (x : ℝ) : ℝ := x * (180 / π)

/-- `np.mod x m` for real arguments (result has the sign of `m`;
for `m > 0` it lies in `[0, m)`). -/
def npmod (x m : ℝ) : ℝ := x - m * (⌊x / m⌋ : ℝ)

/-- `np.arctan2 y x` (radians in `(-π, π]`, numpy sign conventions). -/
def atan2 (y x : ℝ) : ℝ :=
  if 0 < x then arctan (y / x)
  else if x < 0 ∧ 0 ≤ y then arctan (y / x) + π
  else if x < 0 then arctan (y / x) - π
  else if 0 < y then π / 2
  else if y < 0 then -(π / 2)
  else 0

/-- `julian_day = (date - reference).days + 2415018.5 + (hour*60+minute)/(24*60) - tz/24 + 1`. -/
def julianDay (days : ℤ) (hour minute tz : ℝ) : ℝ :=
  (days : ℝ) + 2415018.5 + (hour * 60 + minute) / (24 * 60) - tz / 24 + 1

/-- `julian_century = (julian_day - 2451545) / 36525`. -/
def julianCentury (jd : ℝ) : ℝ := (jd - 2451545) / 36525

/-- Geom Mean Long Sun (deg). -/
def GMLS (t : ℝ) : ℝ := npmod (280.46646 + t * (36000.76983 + t * 0.0003032)) 360

/-- Geom Mean Anom Sun (deg). -/
def GMAS (t : ℝ) : ℝ := 357.52911 + t * (35999.05029 - 0.0001537 * t)

/-- Eccent Earth Orbit. -/
def EEO (t : ℝ) : ℝ := 0.016708634 - t * (0.000042037 + 0.0000001267 * t)

/-- Sun Eq of Ctr (named `SEC` in the source; that name is reused there
for the corrected elevation, so it is spelled out here). -/
def sunEqCtr (t : ℝ) : ℝ :=
  sin (deg2rad (GMAS t)) * (1.914602 - t * (0.004817 + 0.000014 * t))
    + sin (deg2rad (2 * GMAS t)) * (0.019993 - 0.000101 * t)
    + sin (deg2rad (3 * GMAS t)) * 0.000289

/-- Sun True Long (deg). -/
def STL (t : ℝ) : ℝ := GMLS t + sunEqCtr t

/-- Sun True Anom (deg). -/
def STA (t : ℝ) : ℝ := GMAS t + sunEqCtr t

/-- Sun Rad Vector (AUs). -/
def SRV (t : ℝ) : ℝ :=
  1.000001018 * (1 - EEO t ^ 2) / (1 + EEO t * cos (deg2rad (STA t)))

/-- Sun App Long (deg). -/
def SAL (t : ℝ) : ℝ := STL t - 0.00569 - 0.00478 * sin (deg2rad (125.04 - 1934.136 * t))

/-- Mean Obliq Ecliptic (deg). -/
def MOE (t : ℝ) : ℝ :=
  23 + (26 + (21.448 - t * (46.815 + t * (0.00059 - t * 0.001813))) / 60) / 60

/-- Obliq Corr (deg). -/
def OC (t : ℝ) : ℝ := MOE t + 0.00256 * cos (deg2rad (125.04 - 1934.136 * t))

/-- Sun Rt Ascen (deg). -/
def SRA (t : ℝ) : ℝ :=
  rad2deg (atan2 (cos (deg2rad (OC t)) * sin (deg2rad (SAL t))) (cos (deg2rad (SAL t))))

/-- Sun Declin (deg). -/
def SD (t : ℝ) : ℝ := rad2deg (arcsin (sin (deg2rad (OC t)) * sin (deg2rad (SAL t))))

/-- var y. -/
def var_y (t : ℝ) : ℝ := tan (deg2rad (OC t / 2)) ^ 2

/-- Eq of Time (minutes). -/
def ET (t : ℝ) : ℝ :=
  4 * rad2deg (var_y t * sin (2 * deg2rad (GMLS t)) - 2 * EEO t * sin (deg2rad (GMAS t))
    + 4 * EEO t * var_y t * sin (deg2rad (GMAS t)) * cos (2 * deg2rad (GMLS t))
    - 0.5 * var_y t ^ 2 * sin (4 * deg2rad (GMLS t))
    - 1.25 * EEO t ^ 2 * sin (2 * deg2rad (GMAS t)))

/-- HA of sunrise (deg), the half-day hour-angle span. -/
def HAS (t lat : ℝ) : ℝ :=
  rad2deg (arccos (cos (deg2rad 90.833) / (cos (deg2rad lat) * cos (deg2rad (SD t)))
    - tan (deg2rad lat) * tan (deg2rad (SD t))))

/-- Solar Noon (LST). -/
def SN (t lon tz : ℝ) : ℝ := (720 - 4 * lon - ET t + tz * 60) / 1440

/-- Sunrise Time (LST). -/
def SrT (t lat lon tz : ℝ) : ℝ := SN t lon tz - HAS t lat * 4 / 1440

/-- Sunset Time (LST). -/
def SsT (t lat lon tz : ℝ) : ℝ := SN t lon tz + HAS t lat * 4 / 1440

/-- Sunlight Duration (minutes). -/
def SlD (t lat : ℝ) : ℝ := 8 * HAS t lat

/-- True Solar Time (min), wrapped mod 1440. -/
def TST (t hour minute lon tz : ℝ) : ℝ :=
  npmod ((hour * 60 + minute) / (24 * 60) * 1440 + ET t + 4 * lon - 60 * tz) 1440

/-- Hour Angle (deg): `TST/4 + 180` if `TST/4 < 0`, else `TST/4 - 180`. -/
def hourAngle (tst : ℝ) : ℝ := if tst / 4 < 0 then tst / 4 + 180 else tst / 4 - 180

/-- Solar Zenith Angle (deg). -/
def SZA (t lat ha : ℝ) : ℝ :=
  rad2deg (arccos (sin (deg2rad lat) * sin (deg2rad (SD t))
    + cos (deg2rad lat) * cos (deg2rad (SD t)) * cos (deg2rad ha)))

/-- Solar Elevation Angle (deg), uncorrected. -/
def SEA (t lat ha : ℝ) : ℝ := 90 - SZA t lat ha

/-- Approx Atmospheric Refraction (arcseconds; the source divides by 3600
afterwards), the source's 4-way `if`/`elif` chain on the elevation. -/
def AAR (e : ℝ) : ℝ :=
  if e > 85 then 0
  else if e > 5 then
    1 / tan (deg2rad e) - 0.07 / tan (deg2rad e) ^ 3 + 0.000086 / tan (deg2rad e) ^ 5
  else if e > -0.575 then
    1735 + e * (-518.2 + e * (103.4 + e * (-12.79 + e * 0.711)))
  else -20.772 / tan (deg2rad e)

/-- Solar Azimuth Angle (deg cw from N), the source's 2-way branch on the
sign of the hour angle. -/
def SAA (t lat ha sza : ℝ) : ℝ :=
  if ha > 0 then
    npmod (rad2deg (arccos ((sin (deg2rad lat) * cos (deg2rad sza) - sin (deg2rad (SD t)))
      / (cos (deg2rad lat) * sin (deg2rad sza)))) + 180) 360
  else
    npmod (540 - rad2deg (arccos ((sin (deg2rad lat) * cos (deg2rad sza) - sin (deg2rad (SD t)))
      / (cos (deg2rad lat) * sin (deg2rad sza))))) 360

/-- The body of `solar_angle` after the date has been resolved to a day
count: the full straight-line computation, including the sunrise/sunset
block (`SRA`, `SRV`, `HAS`, `SN`, `SrT`, `SsT`, `SlD`) that the source
computes but does not return. -/
def solar_angleCore (days : ℤ) (hour minute tz lat lon : ℝ) : ℝ × ℝ :=
  let jd := julianDay days hour minute tz
  let t := julianCentury jd
  let sra := SRA t
  let srv := SRV t
  let has := HAS t lat
  let sn := SN t lon tz
  let srt := SrT t lat lon tz
  let sst := SsT t lat lon tz
  let sld := SlD t lat
  let tst := TST t hour minute lon tz
  let ha := hourAngle tst
  let sza := SZA t lat ha
  let sea := SEA t lat ha
  let aar := AAR sea / 3600
  let sec := sea + aar
  let saa := SAA t lat ha sza
  (sec, saa)

/-- `solar_angle`: `datetime.datetime(year, month, day)` raises on an
invalid date (modelled as `none`) before any trigonometric computation;
otherwise the straight-line core runs on the day difference from
1899-12-31. -/
def solar_angle (year month day : ℤ) (hour minute tz lat lon : ℝ) : Option (ℝ × ℝ) :=
  if isValidDate year month day then
    some (solar_angleCore (daysSinceRef year month day) hour minute tz lat lon)
  else none

/-- `solar_angleCore` with the sunrise/sunset block (`SRA`, `SRV`, `HAS`,
`SN`, `SrT`, `SsT`, `SlD`) removed. -/
def solar_angleCoreNS (days : ℤ) (hour minute tz lat lon : ℝ) : ℝ × ℝ :=
  let jd := julianDay days hour minute tz
  let t := julianCentury jd
  let tst := TST t hour minute lon tz
  let ha := hourAngle tst
  let sza := SZA t lat ha
  let sea := SEA t lat ha
  let aar := AAR sea / 3600
  (sea + aar, SAA t lat ha sza)

/-! ## Checked model: domain conditions made observable.

`none` stands for the NaN / domain-error outcome: an inverse-trigonometric
argument outside `[-1, 1]`, a zero divisor, or a tangent at a pole of
`tan` (where exact real arithmetic has no value; floating point returns a
huge artifact of rounding π).  A `none` poisons exactly the downstream
values that are data-dependent on it, as NaN does in numpy. -/

/-- Checked `arcsin`. -/
def asinQ (x : ℝ) : Option ℝ := if -1 ≤ x ∧ x ≤ 1 then some (arcsin x) else none

/-- Checked `arccos`. -/
def acosQ (x : ℝ) : Option ℝ := if -1 ≤ x ∧ x ≤ 1 then some (arccos x) else none

/-- Checked division. -/
def divQ (a b : ℝ) : Option ℝ := if b = 0 then none else some (a / b)

/-- Checked tangent. -/
def tanQ (x : ℝ) : Option ℝ := if cos x = 0 then none else some (tan x)

/-- Sun Declin (deg), checked. -/
def SDq (t : ℝ) : Option ℝ :=
  Option.map rad2deg (asinQ (sin (deg2rad (OC t)) * sin (deg2rad (SAL t))))

/-- The half-day hour-angle span `HAS`, checked. -/
def HASq (t lat : ℝ) : Option ℝ := do
  let sd ← SDq t
  let q ← divQ (cos (deg2rad 90.833)) (cos (deg2rad lat) * cos (deg2rad sd))
  let tl ← tanQ (deg2rad lat)
  let td ← tanQ (deg2rad sd)
  let z ← acosQ (q - tl * td)
  pure (rad2deg z)

/-- Sun Rad Vector, checked. -/
def SRVq (t : ℝ) : Option ℝ :=
  divQ (1.000001018 * (1 - EEO t ^ 2)) (1 + EEO t * cos (deg2rad (STA t)))

/-- Solar Zenith Angle (deg), checked. -/
def SZAq (t lat ha : ℝ) : Option ℝ := do
  let sd ← SDq t
  let z ← acosQ (sin (deg2rad lat) * sin (deg2rad sd)
    + cos (deg2rad lat) * cos (deg2rad sd) * cos (deg2rad ha))
  pure (rad2deg z)

/-- Approx Atmospheric Refraction (arcseconds), checked. -/
def AARq (e : ℝ) : Option ℝ :=
  if e > 85 then pure 0
  else if e > 5 then do
    let tn ← tanQ (deg2rad e)
    let a ← divQ 1 tn
    let b ← divQ 0.07 (tn ^ 3)
    let c ← divQ 0.000086 (tn ^ 5)
    pure (a - b + c)
  else if e > -0.575 then
    pure (1735 + e * (-518.2 + e * (103.4 + e * (-12.79 + e * 0.711))))
  else do
    let tn ← tanQ (deg2rad e)
    divQ (-20.772) tn

/-- Solar Azimuth Angle (deg), checked. -/
def SAAq (t lat ha sza : ℝ) : Option ℝ := do
  let sd ← SDq t
  let r ← divQ (sin (deg2rad lat) * cos (deg2rad sza) - sin (deg2rad sd))
    (cos (deg2rad lat) * sin (deg2rad sza))
  let z ← acosQ r
  if ha > 0 then pure (npmod (rad2deg z + 180) 360)
  else pure (npmod (540 - rad2deg z) 360)

/-- The checked counterpart of `solar_angleCore`: each output slot carries
`none` when a domain condition arises on its own data path.  The
sunrise/sunset block is computed (and dropped) exactly as in the source. -/
def solar_angleQ (days : ℤ) (hour minute tz lat lon : ℝ) : Option ℝ × Option ℝ :=
  let jd := julianDay days hour minute tz
  let t := julianCentury jd
  let srv := SRVq t
  let has := HASq t lat
  let srt := Option.map (fun h => SN t lon tz - h * 4 / 1440) has
  let sst := Option.map (fun h => SN t lon tz + h * 4 / 1440) has
  let sld := Option.map (fun h => 8 * h) has
  let tst := TST t hour minute lon tz
  let ha := hourAngle tst
  let elev : Option ℝ := do
    let sza ← SZAq t lat ha
    let sea := 90 - sza
    let aar ← AARq sea
    pure (sea + aar / 3600)
  let az : Option ℝ := do
    let sza ← SZAq t lat ha
    SAAq t lat ha sza
  (elev, az)

/-- `solar_angleQ` with the sunrise/sunset block removed. -/
def solar_angleQNS (days : ℤ) (hour minute tz lat lon : ℝ) : Option ℝ × Option ℝ :=
  let jd := julianDay days hour minute tz
  let t := julianCentury jd
  let tst := TST t hour minute lon tz
  let ha := hourAngle tst
  let elev : Option ℝ := do
    let sza ← SZAq t lat ha
    let sea := 90 - sza
    let aar ← AARq sea
    pure (sea + aar / 3600)
  let az : Option ℝ := do
    let sza ← SZAq t lat ha
    SAAq t lat ha sza
  (elev, az)

/-! ## Spec-side definitions (written from the claims' wording, to be
compared with the source-side definitions above). -/

/-- The refraction correction as the spec words it: a 4-way piecewise
function with interval conditions, the middle branch written with
cotangents (`cot e = 1 / tan e`). -/
def refractionSpec (e : ℝ) : ℝ :=
  if e > 85 then 0
  else if 5 < e ∧ e ≤ 85 then
    1 / tan (deg2rad e) - 0.07 * (1 / tan (deg2rad e)) ^ 3
      + 0.000086 * (1 / tan (deg2rad e)) ^ 5
  else if -0.575 < e ∧ e ≤ 5 then
    1735 + e * (-518.2 + e * (103.4 + e * (-12.79 + e * 0.711)))
  else -20.772 / tan (deg2rad e)

/-- The azimuth as the spec words it: branch on the sign of the hour
angle, with `ratio = (sin lat · cos zenith - sin declination) /
(cos lat · sin zenith)`. -/
def azimuthSpec (lat sd sza ha : ℝ) : ℝ :=
  if ha > 0 then
    npmod (rad2deg (arccos ((sin (deg2rad lat) * cos (deg2rad sza) - sin (deg2rad sd))
      / (cos (deg2rad lat) * sin (deg2rad sza)))) + 180) 360
  else
    npmod (540 - rad2deg (arccos ((sin (deg2rad lat) * cos (deg2rad sza) - sin (deg2rad sd))
      / (cos (deg2rad lat) * sin (deg2rad sza))))) 360

/-- Non-degeneracy of an input to `solar_angleCore`: every
inverse-trigonometric argument occurring in the computation lies in
`[-1, 1]` and every divisor that the computation evaluates is nonzero. -/
def NonDegenerate (days : ℤ) (hour minute tz lat lon : ℝ) : Prop :=
  let t := julianCentury (julianDay days hour minute tz)
  let ha := hourAngle (TST t hour minute lon tz)
  let sdArg := sin (deg2rad (OC t)) * sin (deg2rad (SAL t))
  let zArg := sin (deg2rad lat) * sin (deg2rad (SD t))
    + cos (deg2rad lat) * cos (deg2rad (SD t)) * cos (deg2rad ha)
  let hasArg := cos (deg2rad 90.833) / (cos (deg2rad lat) * cos (deg2rad (SD t)))
    - tan (deg2rad lat) * tan (deg2rad (SD t))
  let azArg := (sin (deg2rad lat) * cos (deg2rad (SZA t lat ha)) - sin (deg2rad (SD t)))
    / (cos (deg2rad lat) * sin (deg2rad (SZA t lat ha)))
  (-1 ≤ sdArg ∧ sdArg ≤ 1) ∧ (-1 ≤ zArg ∧ zArg ≤ 1) ∧
  (-1 ≤ hasArg ∧ hasArg ≤ 1) ∧ (-1 ≤ azArg ∧ azArg ≤ 1) ∧
  cos (deg2rad lat) * cos (deg2rad (SD t)) ≠ 0 ∧
  cos (deg2rad lat) * sin (deg2rad (SZA t lat ha)) ≠ 0 ∧
  1 + EEO t * cos (deg2rad (STA t)) ≠ 0 ∧
  (SEA t lat ha ≤ -0.575 → tan (deg2rad (SEA t lat ha)) ≠ 0)

end

/-! ## General lemmas about `npmod`, `TST` and `hourAngle`. -/

theorem npmod_nonneg (x : ℝ) {m : ℝ} (hm : 0 < m) : 0 ≤ npmod x m := by
  have h := Int.floor_le (x / m)
  have h2 : m * (⌊x / m⌋ : ℝ) ≤ m * (x / m) := mul_le_mul_of_nonneg_left h hm.le
  have hx : m * (x / m) = x := by field_simp
  unfold npmod
  linarith

theorem npmod_lt (x : ℝ) {m : ℝ} (hm : 0 < m) : npmod x m < m := by
  have h := Int.lt_floor_add_one (x / m)
  have h2 : m * (x / m) < m * ((⌊x / m⌋ : ℝ) + 1) := mul_lt_mul_of_pos_left h hm
  have hx : m * (x / m) = x := by field_simp
  unfold npmod
  nlinarith

theorem npmod_eq_self {x m : ℝ} (h0 : 0 ≤ x) (h1 : x < m) : npmod x m = x := by
  have hm : 0 < m := lt_of_le_of_lt h0 h1
  have hf : ⌊x / m⌋ = 0 := by
    rw [Int.floor_eq_zero_iff]
    constructor
    · positivity
    · rw [div_lt_one hm]; exact h1
  unfold npmod
  rw [hf]
  push_cast
  ring

theorem npmod_add_cancel (x m : ℝ) (hm : m ≠ 0) : npmod (x + m) m = npmod x m := by
  have h : (x + m) / m = x / m + 1 := by field_simp
  unfold npmod
  rw [h, Int.floor_add_one]
  push_cast
  ring

theorem TST_nonneg (t hour minute lon tz : ℝ) : 0 ≤ TST t hour minute lon tz := by
  unfold TST
  exact npmod_nonneg _ (by norm_num)

theorem TST_lt_1440 (t hour minute lon tz : ℝ) : TST t hour minute lon tz < 1440 := by
  unfold TST
  exact npmod_lt _ (by norm_num)

theorem hourAngle_eq_of_nonneg {s : ℝ} (h : 0 ≤ s) : hourAngle s = s / 4 - 180 := by
  unfold hourAngle
  rw [if_neg (by linarith)]

/-! ## Claim theorems (first group). -/

/-- Claim C10: the pair returned by `solar_angle` is independent of the
sunrise/sunset block: deleting the computations of `HAS`, `SN`, `SrT`,
`SsT`, `SlD` (and the equally dead `SRA`, `SRV`) leaves both the total
model and the checked model (where a domain error in that block is an
observable `none`) with identical outputs, so no NaN or domain error
arising in that block reaches the returned values. -/
theorem sunrise_block_independent (days : ℤ) (hour minute tz lat lon : ℝ) :
    solar_angleCore days hour minute tz lat lon = solar_angleCoreNS days hour minute tz lat lon ∧
    solar_angleQ days hour minute tz lat lon = solar_angleQNS days hour minute tz lat lon :=
  ⟨rfl, rfl⟩

/-- Claim C2: the elevation returned by `solar_angle` is the raw elevation
plus the 4-way piecewise refraction (in arcseconds, divided by 3600), the
branches and boundary tie-breaks being exactly those of the spec
(`refractionSpec`, written with interval conditions and cotangents). -/
theorem elevation_correction_matches_spec (days : ℤ) (hour minute tz lat lon : ℝ) :
    (solar_angleCore days hour minute tz lat lon).1 =
      SEA (julianCentury (julianDay days hour minute tz)) lat
          (hourAngle (TST (julianCentury (julianDay days hour minute tz)) hour minute lon tz))
        + refractionSpec (SEA (julianCentury (julianDay days hour minute tz)) lat
            (hourAngle (TST (julianCentury (julianDay days hour minute tz)) hour minute lon tz)))
          / 3600 := by
  have key : ∀ e : ℝ, AAR e = refractionSpec e := by
    intro e
    unfold AAR refractionSpec
    by_cases h1 : e > 85
    · rw [if_pos h1, if_pos h1]
    · rw [if_neg h1, if_neg h1]
      by_cases h2 : e > 5
      · rw [if_pos h2, if_pos (show 5 < e ∧ e ≤ 85 from ⟨h2, le_of_not_lt h1⟩)]
        ring
      · rw [if_neg h2, if_neg (show ¬ (5 < e ∧ e ≤ 85) from fun hc => h2 hc.1)]
        by_cases h3 : e > -0.575
        · rw [if_pos h3, if_pos (show -0.575 < e ∧ e ≤ 5 from ⟨h3, le_of_not_lt h2⟩)]
        · rw [if_neg h3, if_neg (show ¬ (-0.575 < e ∧ e ≤ 5) from fun hc => h3 hc.1)]
  show SEA _ lat _ + AAR (SEA _ lat _) / 3600 = _
  rw [key]

/-- Claim C5: the azimuth returned by `solar_angle` is the 2-way branch on
the sign of the hour angle described by the spec (`azimuthSpec`), with
`ratio = (sin lat · cos zenith - sin declination) / (cos lat · sin zenith)`. -/
theorem azimuth_matches_spec (days : ℤ) (hour minute tz lat lon : ℝ) :
    (solar_angleCore days hour minute tz lat lon).2 =
      azimuthSpec lat (SD (julianCentury (julianDay days hour minute tz)))
        (SZA (julianCentury (julianDay days hour minute tz)) lat
          (hourAngle (TST (julianCentury (julianDay days hour minute tz)) hour minute lon tz)))
        (hourAngle (TST (julianCentury (julianDay days hour minute tz)) hour minute lon tz)) :=
  rfl

/-- Claim C7: a `(year, month, day)` triple that is not a valid calendar
date makes `solar_angle` fail immediately (the date constructor raises
before any trigonometric computation; modelled as `none`). -/
theorem invalid_date_fails (year month day : ℤ) (hour minute tz lat lon : ℝ)
    (h : ¬ isValidDate year month day) :
    solar_angle year month day hour minute tz lat lon = none := by
  unfold solar_angle
  rw [if_neg h]

/-- Witness for `invalid_date_fails`: month 13 and February 30 are
rejected. -/
theorem invalid_date_fails_witness :
    (¬ isValidDate 2021 13 1 ∧ solar_angle 2021 13 1 0 0 0 0 0 = none) ∧
    (¬ isValidDate 2021 2 30 ∧ solar_angle 2021 2 30 0 0 0 0 0 = none) :=
  ⟨⟨by decide, invalid_date_fails 2021 13 1 0 0 0 0 0 (by decide)⟩,
   ⟨by decide, invalid_date_fails 2021 2 30 0 0 0 0 0 (by decide)⟩⟩

/-- Claim C9: the true solar time is wrapped into `[0, 1440)`, so it is
never negative, the `TST/4 < 0` branch of the hour-angle computation is
dead, and `HA = TST/4 - 180 ∈ [-180, 180)`, with `-180` attained exactly
when `TST = 0` (and `180` never attained). -/
theorem tst_nonneg_first_branch_dead (days : ℤ) (hour minute tz lon : ℝ) :
    0 ≤ TST (julianCentury (julianDay days hour minute tz)) hour minute lon tz ∧
    hourAngle (TST (julianCentury (julianDay days hour minute tz)) hour minute lon tz) =
      TST (julianCentury (julianDay days hour minute tz)) hour minute lon tz / 4 - 180 ∧
    -180 ≤ hourAngle (TST (julianCentury (julianDay days hour minute tz)) hour minute lon tz) ∧
    hourAngle (TST (julianCentury (julianDay days hour minute tz)) hour minute lon tz) < 180 ∧
    (hourAngle (TST (julianCentury (julianDay days hour minute tz)) hour minute lon tz) = -180 ↔
      TST (julianCentury (julianDay days hour minute tz)) hour minute lon tz = 0) := by
  have h0 := TST_nonneg (julianCentury (julianDay days hour minute tz)) hour minute lon tz
  have h1 := TST_lt_1440 (julianCentury (julianDay days hour minute tz)) hour minute lon tz
  have hha := hourAngle_eq_of_nonneg h0
  refine ⟨h0, hha, ?_, ?_, ?_⟩
  · rw [hha]; linarith
  · rw [hha]; linarith
  · rw [hha]; constructor <;> intro hh <;> linarith

/-- Claim C4 (counterexample): at an input whose true solar time is
exactly 0 (hour = minute = 0, tz = 0, longitude chosen to cancel the
equation of time), the hour angle equals `-180`, which does NOT lie in
the claimed interval `(-180, 180]`. -/
theorem hour_angle_attains_neg_180 :
    hourAngle (TST (julianCentury (julianDay 44195 0 0 0)) 0 0
        (-(ET (julianCentury (julianDay 44195 0 0 0))) / 4) 0) = -180 ∧
    ¬ (-180 < hourAngle (TST (julianCentury (julianDay 44195 0 0 0)) 0 0
        (-(ET (julianCentury (julianDay 44195 0 0 0))) / 4) 0)) := by
  have ht : TST (julianCentury (julianDay 44195 0 0 0)) 0 0
      (-(ET (julianCentury (julianDay 44195 0 0 0))) / 4) 0 = 0 := by
    unfold TST
    rw [show ((0:ℝ) * 60 + 0) / (24 * 60) * 1440 + ET (julianCentury (julianDay 44195 0 0 0))
        + 4 * (-(ET (julianCentury (julianDay 44195 0 0 0))) / 4) - 60 * 0 = 0 by ring]
    unfold npmod
    norm_num
  rw [ht]
  unfold hourAngle
  norm_num

/-- Claim C4 (amended): the hour angle is `TST/4 + 180` when `TST/4 < 0`
and `TST/4 - 180` otherwise; since `TST ∈ [0, 1440)` the first branch is
dead and `HA` always lies in the half-open interval `[-180, 180)` (not
`(-180, 180]`). -/
theorem hour_angle_branch_and_range (days : ℤ) (hour minute tz lon : ℝ) :
    hourAngle (TST (julianCentury (julianDay days hour minute tz)) hour minute lon tz) =
      TST (julianCentury (julianDay days hour minute tz)) hour minute lon tz / 4 - 180 ∧
    -180 ≤ hourAngle (TST (julianCentury (julianDay days hour minute tz)) hour minute lon tz) ∧
    hourAngle (TST (julianCentury (julianDay days hour minute tz)) hour minute lon tz) < 180 := by
  have h0 := TST_nonneg (julianCentury (julianDay days hour minute tz)) hour minute lon tz
  have h1 := TST_lt_1440 (julianCentury (julianDay days hour minute tz)) hour minute lon tz
  have hha := hourAngle_eq_of_nonneg h0
  exact ⟨hha, by rw [hha]; linarith, by rw [hha]; linarith⟩

/-! ## Calendar arithmetic for the hour-overflow claim. -/

theorem daysBeforeMonth_step (y m : ℤ) (h1 : 1 ≤ m) (h2 : m ≤ 11) :
    daysBeforeMonth (m + 1) + (if 3 ≤ m + 1 ∧ isLeapYear y then 1 else 0) =
      daysBeforeMonth m + (if 3 ≤ m ∧ isLeapYear y then 1 else 0) + daysInMonth y m := by
  rcases em (isLeapYear y) with hL | hL <;> interval_cases m <;>
    norm_num [daysBeforeMonth, daysInMonth, hL]

theorem toOrdinal_nextDay {y m d : ℤ} (h1 : isValidDate y m d) :
    toOrdinal (nextDay y m d).1 (nextDay y m d).2.1 (nextDay y m d).2.2 = toOrdinal y m d + 1 := by
  obtain ⟨hy1, hy2, hm1, hm2, hd1, hd2⟩ := h1
  unfold nextDay
  split_ifs with hlt hm12
  · unfold toOrdinal
    ring
  · have hd : d = daysInMonth y m := le_antisymm hd2 (not_lt.1 hlt)
    have hstep := daysBeforeMonth_step y m hm1 (by omega)
    simp only [toOrdinal]
    omega
  · have hm : m = 12 := le_antisymm hm2 (not_lt.1 hm12)
    subst hm
    have hd : d = 31 := by
      have : daysInMonth y 12 = 31 := by norm_num [daysInMonth]
      omega
    subst hd
    have hb1 : daysBeforeMonth 1 = 0 := by norm_num [daysBeforeMonth]
    have hb12 : daysBeforeMonth 12 = 334 := by norm_num [daysBeforeMonth]
    have hif1 : (if 3 ≤ (1:ℤ) ∧ isLeapYear (y + 1) then (1:ℤ) else 0) = 0 := by
      norm_num
    have hif12 : (if 3 ≤ (12:ℤ) ∧ isLeapYear y then (1:ℤ) else 0)
        = (if isLeapYear y then 1 else 0) := by
      norm_num
    simp only [toOrdinal, hb1, hb12, hif1, hif12]
    rcases em (isLeapYear y) with hL | hL
    · rw [if_pos hL]
      unfold isLeapYear at hL
      omega
    · rw [if_neg hL]
      unfold isLeapYear at hL
      omega

theorem core_shift_24 (days : ℤ) (hour minute tz lat lon : ℝ) :
    solar_angleCore days (hour + 24) minute tz lat lon =
      solar_angleCore (days + 1) hour minute tz lat lon := by
  have hjd : julianDay days (hour + 24) minute tz = julianDay (days + 1) hour minute tz := by
    unfold julianDay
    push_cast
    ring
  have htst : ∀ t lon' tz', TST t (hour + 24) minute lon' tz' = TST t hour minute lon' tz' := by
    intro t lon' tz'
    unfold TST
    rw [show ((hour + 24) * 60 + minute) / (24 * 60) * 1440 + ET t + 4 * lon' - 60 * tz'
        = ((hour * 60 + minute) / (24 * 60) * 1440 + ET t + 4 * lon' - 60 * tz') + 1440 by ring]
    exact npmod_add_cancel _ _ (by norm_num)
  simp only [solar_angleCore]
  rw [hjd, htst]

/-- Claim C8: out-of-range `hour` values are absorbed arithmetically, not
rejected: with a valid date (and valid successor), `hour + 24` still
returns a result, equal to the one for the next calendar day at the
original hour. -/
theorem hour_overflow_next_day (y m d : ℤ) (hour minute tz lat lon : ℝ)
    (h1 : isValidDate y m d)
    (h2 : isValidDate (nextDay y m d).1 (nextDay y m d).2.1 (nextDay y m d).2.2) :
    (solar_angle y m d (hour + 24) minute tz lat lon).isSome = true ∧
    solar_angle y m d (hour + 24) minute tz lat lon =
      solar_angle (nextDay y m d).1 (nextDay y m d).2.1 (nextDay y m d).2.2
        hour minute tz lat lon := by
  have hdays : daysSinceRef (nextDay y m d).1 (nextDay y m d).2.1 (nextDay y m d).2.2 =
      daysSinceRef y m d + 1 := by
    unfold daysSinceRef
    rw [toOrdinal_nextDay h1]
    ring
  unfold solar_angle
  rw [if_pos h1, if_pos h2, hdays, core_shift_24]
  exact ⟨rfl, rfl⟩

/-- Witness for `hour_overflow_next_day`: 2020-02-28 29:00 agrees with
2020-02-29 (leap day) 05:00. -/
theorem hour_overflow_next_day_witness :
    isValidDate 2020 2 28 ∧
    isValidDate (nextDay 2020 2 28).1 (nextDay 2020 2 28).2.1 (nextDay 2020 2 28).2.2 ∧
    ((solar_angle 2020 2 28 (5 + 24) 0 0 0 0).isSome = true ∧
      solar_angle 2020 2 28 (5 + 24) 0 0 0 0 =
        solar_angle (nextDay 2020 2 28).1 (nextDay 2020 2 28).2.1 (nextDay 2020 2 28).2.2
          5 0 0 0 0) :=
  ⟨by decide, by decide, hour_overflow_next_day 2020 2 28 5 0 0 0 0 (by decide) (by decide)⟩

/-! ## Bounds on the refraction branches. -/

theorem tan_deg_5p0005_bounds :
    0.0872 < tan (deg2rad 5.0005) ∧ tan (deg2rad 5.0005) < 0.0877 := by
  have hπl := Real.pi_gt_3141592
  have hπu := Real.pi_lt_3141593
  have hx1 : (0.0872:ℝ) < deg2rad 5.0005 := by unfold deg2rad; nlinarith
  have hx2 : deg2rad 5.0005 < 0.08728 := by unfold deg2rad; nlinarith
  have hxpos : (0:ℝ) < deg2rad 5.0005 := by linarith
  have hxlt : deg2rad 5.0005 < π / 2 := by linarith
  constructor
  · exact lt_trans hx1 (Real.lt_tan hxpos hxlt)
  · have hcos : (0.9961:ℝ) ≤ cos (deg2rad 5.0005) := by
      have h := Real.one_sub_sq_div_two_le_cos (x := deg2rad 5.0005)
      nlinarith
    have hsin : sin (deg2rad 5.0005) ≤ deg2rad 5.0005 := Real.sin_le hxpos.le
    rw [Real.tan_eq_sin_div_cos, div_lt_iff (by linarith)]
    nlinarith

/-- Claim C1 (the code deviates): the source's 5°–85° refraction branch is
`1/tan e - 0.07/tan³ e + 0.000086/tan⁵ e` (the NOAA reference has
`58.1/tan e` as its leading term), so just above the 5° boundary the
refraction is negative, while the cubic branch at 5° yields 574.625
arcseconds: the corrected elevation jumps by more than 574 arcseconds
(≈ 0.16°) across the boundary instead of being continuous. -/
theorem refraction_discontinuous_at_5deg :
    AAR 5 = 574.625 ∧ AAR 5.0005 < 0 ∧ 574 < AAR 5 - AAR 5.0005 := by
  have h5 : AAR 5 = 574.625 := by
    unfold AAR
    rw [if_neg (by norm_num), if_neg (by norm_num), if_pos (by norm_num)]
    norm_num
  have hneg : AAR 5.0005 < 0 := by
    unfold AAR
    rw [if_neg (by norm_num), if_pos (by norm_num)]
    obtain ⟨h1, h2⟩ := tan_deg_5p0005_bounds
    have ht : (0:ℝ) < tan (deg2rad 5.0005) := by linarith
    have key : 1 / tan (deg2rad 5.0005) - 0.07 / tan (deg2rad 5.0005) ^ 3
        + 0.000086 / tan (deg2rad 5.0005) ^ 5 =
        (tan (deg2rad 5.0005) ^ 4 - 0.07 * tan (deg2rad 5.0005) ^ 2 + 0.000086)
          / tan (deg2rad 5.0005) ^ 5 := by
      field_simp
      ring
    rw [key]
    apply div_neg_of_neg_of_pos
    · have ht2u : tan (deg2rad 5.0005) ^ 2 < 0.0077 := by nlinarith
      have ht2l : (0.0076:ℝ) < tan (deg2rad 5.0005) ^ 2 := by nlinarith
      nlinarith
    · positivity
  exact ⟨h5, hneg, by linarith⟩

/-! ## Range of the corrected elevation and the azimuth. -/

theorem rad2deg_arccos_mem (w : ℝ) : 0 ≤ rad2deg (arccos w) ∧ rad2deg (arccos w) ≤ 180 := by
  have h0 := Real.arccos_nonneg w
  have h1 := Real.arccos_le_pi w
  have hπ := Real.pi_pos
  have hr : (0:ℝ) < 180 / π := by positivity
  have h2 : arccos w * (180 / π) ≤ π * (180 / π) := mul_le_mul_of_nonneg_right h1 hr.le
  have h3 : π * (180 / π) = 180 := by field_simp
  unfold rad2deg
  constructor
  · exact mul_nonneg h0 hr.le
  · linarith

theorem SEA_mem (t lat ha : ℝ) : -90 ≤ SEA t lat ha ∧ SEA t lat ha ≤ 90 := by
  have h := rad2deg_arccos_mem (sin (deg2rad lat) * sin (deg2rad (SD t))
    + cos (deg2rad lat) * cos (deg2rad (SD t)) * cos (deg2rad ha))
  unfold SEA SZA
  constructor <;> linarith [h.1, h.2]

set_option maxHeartbeats 1000000 in
theorem corrected_elevation_mem {e : ℝ} (hlo : -90 ≤ e) (hhi : e ≤ 90) :
    -90 ≤ e + AAR e / 3600 ∧ e + AAR e / 3600 ≤ 90 := by
  have hπl := Real.pi_gt_3141592
  have hπu := Real.pi_lt_3141593
  unfold AAR
  by_cases h1 : e > 85
  · rw [if_pos h1]
    constructor <;> linarith
  · rw [if_neg h1]
    by_cases h2 : e > 5
    · rw [if_pos h2]
      have hy1 : deg2rad e < π / 2 := by
        unfold deg2rad
        nlinarith [le_of_not_lt h1]
      have hy0 : 0 < deg2rad e := by unfold deg2rad; nlinarith
      have htgt : deg2rad e < tan (deg2rad e) := Real.lt_tan hy0 hy1
      have ht : (0.0872:ℝ) < tan (deg2rad e) := by
        unfold deg2rad at htgt ⊢
        nlinarith
      have ht0 : (0:ℝ) < tan (deg2rad e) := by linarith
      have hinv : 1 / tan (deg2rad e) < 11.47 := by
        rw [div_lt_iff ht0]
        nlinarith
      have ht2 : (0.00760384:ℝ) < tan (deg2rad e) ^ 2 := by nlinarith
      have ht3 : (0.000663:ℝ) < tan (deg2rad e) ^ 3 := by nlinarith
      have ht4 : (0.0000578183:ℝ) < tan (deg2rad e) ^ 4 := by nlinarith
      have ht5 : (0.0000050417:ℝ) < tan (deg2rad e) ^ 5 := by nlinarith
      have hc : 0.000086 / tan (deg2rad e) ^ 5 < 17.1 := by
        rw [div_lt_iff (by positivity)]
        nlinarith
      have hb : 0.07 / tan (deg2rad e) ^ 3 < 106 := by
        rw [div_lt_iff (by positivity)]
        nlinarith
      have hbnn : 0 ≤ 0.07 / tan (deg2rad e) ^ 3 := by positivity
      have hinv0 : 0 ≤ 1 / tan (deg2rad e) := by positivity
      have hc0 : 0 ≤ 0.000086 / tan (deg2rad e) ^ 5 := by positivity
      constructor <;> nlinarith
    · rw [if_neg h2]
      by_cases h3 : e > -0.575
      · rw [if_pos h3]
        have he5 : e ≤ 5 := le_of_not_lt h2
        have hsq0 : 0 ≤ e ^ 2 := sq_nonneg e
        have hsq : e ^ 2 ≤ 25 := by nlinarith
        have hcub : e ^ 3 ≤ 125 := by nlinarith [sq_nonneg (e + 2.5)]
        have hcub2 : -1 ≤ e ^ 3 := by nlinarith [sq_nonneg (e - 1), sq_nonneg (e + 1)]
        have hq : e ^ 4 ≤ 625 := by
          have h := pow_le_pow_left hsq0 hsq 2
          nlinarith [h]
        have hq0 : 0 ≤ e ^ 4 := by positivity
        constructor
        · ring_nf
          linarith
        · ring_nf
          linarith
      · rw [if_neg h3]
        have he : e ≤ -0.575 := le_of_not_lt h3
        by_cases h90 : e = -90
        · subst h90
          rw [show deg2rad (-90) = -(π / 2) by unfold deg2rad; ring]
          rw [Real.tan_neg, Real.tan_pi_div_two]
          norm_num
        · have hegt : -90 < e := lt_of_le_of_ne hlo (Ne.symm h90)
          have hy1 : deg2rad e ≤ -0.0100356 := by unfold deg2rad; nlinarith
          have hy0 : -(π / 2) < deg2rad e := by unfold deg2rad; nlinarith
          have htneg : tan (deg2rad e) < -0.0100356 := by
            have hpos0 : (0:ℝ) < -deg2rad e := by linarith
            have hposlt : -deg2rad e < π / 2 := by linarith
            have := Real.lt_tan hpos0 hposlt
            rw [Real.tan_neg] at this
            linarith
          have ht0 : tan (deg2rad e) < 0 := by linarith
          have haarpos : 0 < -20.772 / tan (deg2rad e) :=
            div_pos_of_neg_of_neg (by norm_num) ht0
          have haarle : -20.772 / tan (deg2rad e) < 2070 := by
            rw [div_lt_iff_of_neg ht0]
            nlinarith
          constructor <;> nlinarith

/-! ## Numeric bounds on the spreadsheet columns, for concrete inputs.

The interval `0.2046 ≤ t ≤ 0.2098` of Julian centuries covers both
concrete dates used below (2020-06-20 and 2020-12-21). -/

theorem deg2rad_rad2deg (x : ℝ) : deg2rad (rad2deg x) = x := by
  unfold deg2rad rad2deg
  field_simp

theorem deg2rad_zero : deg2rad 0 = 0 := by
  unfold deg2rad
  ring

theorem sdArg_mem (t : ℝ) :
    -1 ≤ sin (deg2rad (OC t)) * sin (deg2rad (SAL t)) ∧
    sin (deg2rad (OC t)) * sin (deg2rad (SAL t)) ≤ 1 := by
  have a1 := Real.neg_one_le_sin (deg2rad (OC t))
  have a2 := Real.sin_le_one (deg2rad (OC t))
  have b1 := Real.neg_one_le_sin (deg2rad (SAL t))
  have b2 := Real.sin_le_one (deg2rad (SAL t))
  constructor <;> nlinarith

theorem mul_mem_of_abs {v s M : ℝ} (hv0 : 0 ≤ v) (hvM : v ≤ M) (hs1 : -1 ≤ s) (hs2 : s ≤ 1) :
    -M ≤ v * s ∧ v * s ≤ M := by
  constructor <;> nlinarith

theorem prod_pm_one {s c : ℝ} (hs1 : -1 ≤ s) (hs2 : s ≤ 1) (hc1 : -1 ≤ c) (hc2 : c ≤ 1) :
    -1 ≤ s * c ∧ s * c ≤ 1 := by
  constructor <;> nlinarith

theorem zArg_mem (a b c : ℝ) :
    -1 ≤ sin a * sin b + cos a * cos b * cos c ∧
    sin a * sin b + cos a * cos b * cos c ≤ 1 := by
  have s1 := Real.sin_sq_add_cos_sq a
  have s2 := Real.sin_sq_add_cos_sq b
  have k1 := Real.neg_one_le_cos c
  have k2 := Real.cos_le_one c
  have hcs := sq_nonneg (sin a * cos b * cos c - cos a * sin b)
  have hk2 : (0:ℝ) ≤ 1 - cos c ^ 2 := by nlinarith
  have hcb : 0 ≤ cos b ^ 2 * (1 - cos c ^ 2) := mul_nonneg (sq_nonneg _) hk2
  constructor
  · nlinarith [sq_nonneg (1 + (sin a * sin b + cos a * cos b * cos c))]
  · nlinarith [sq_nonneg (1 - (sin a * sin b + cos a * cos b * cos c))]

theorem tan_le_bound {x : ℝ} (h0 : 0 < x) (h1 : x ≤ 1) : tan x ≤ x / (1 - x ^ 2 / 2) := by
  have hc1 : 1 - x ^ 2 / 2 ≤ cos x := Real.one_sub_sq_div_two_le_cos
  have hc0 : (0:ℝ) < 1 - x ^ 2 / 2 := by nlinarith
  have hcos0 : 0 < cos x := lt_of_lt_of_le hc0 hc1
  have hs : sin x ≤ x := Real.sin_le h0.le
  rw [Real.tan_eq_sin_div_cos, div_le_div_iff hcos0 hc0]
  nlinarith

theorem t_pow_bounds {t : ℝ} (h1 : (0.2046:ℝ) ≤ t) (h2 : t ≤ 0.2098) :
    (0.041861 ≤ t ^ 2 ∧ t ^ 2 ≤ 0.044017) ∧ (0.008564 ≤ t ^ 3 ∧ t ^ 3 ≤ 0.009235) := by
  have ht2l : (0.041861:ℝ) ≤ t ^ 2 := by nlinarith
  have ht2u : t ^ 2 ≤ 0.044017 := by nlinarith
  have ht3l : (0.008564:ℝ) ≤ t ^ 3 := by nlinarith
  have ht3u : t ^ 3 ≤ 0.009235 := by nlinarith
  exact ⟨⟨ht2l, ht2u⟩, ⟨ht3l, ht3u⟩⟩

theorem MOE_bounds {t : ℝ} (h1 : (0.2046:ℝ) ≤ t) (h2 : t ≤ 0.2098) :
    23.43656 ≤ MOE t ∧ MOE t ≤ 23.43664 := by
  obtain ⟨⟨ht2l, ht2u⟩, ⟨ht3l, ht3u⟩⟩ := t_pow_bounds h1 h2
  unfold MOE
  constructor <;> linarith

theorem OC_bounds {t : ℝ} (h1 : (0.2046:ℝ) ≤ t) (h2 : t ≤ 0.2098) :
    23.434 ≤ OC t ∧ OC t ≤ 23.4392 := by
  have hm := MOE_bounds h1 h2
  have hc1 := Real.neg_one_le_cos (deg2rad (125.04 - 1934.136 * t))
  have hc2 := Real.cos_le_one (deg2rad (125.04 - 1934.136 * t))
  unfold OC
  constructor <;> nlinarith [hm.1, hm.2]

theorem OCrad_bounds {t : ℝ} (h1 : (0.2046:ℝ) ≤ t) (h2 : t ≤ 0.2098) :
    0.409 ≤ deg2rad (OC t) ∧ deg2rad (OC t) ≤ 0.409093 := by
  have ho := OC_bounds h1 h2
  have hπl := Real.pi_gt_3141592
  have hπu := Real.pi_lt_3141593
  unfold deg2rad
  constructor <;> nlinarith [ho.1, ho.2]

theorem sinOC_bounds {t : ℝ} (h1 : (0.2046:ℝ) ≤ t) (h2 : t ≤ 0.2098) :
    0.3918 ≤ sin (deg2rad (OC t)) ∧ sin (deg2rad (OC t)) ≤ 0.40910 := by
  have hr := OCrad_bounds h1 h2
  have hπl := Real.pi_gt_3141592
  constructor
  · have hcube := Real.sin_gt_sub_cube (show (0:ℝ) < deg2rad (OC t) by linarith [hr.1])
      (by linarith [hr.2])
    have hx2 : deg2rad (OC t) ^ 2 ≤ 0.16736 := by nlinarith [hr.1, hr.2]
    have hx3 : deg2rad (OC t) ^ 3 ≤ 0.06848 := by nlinarith [hr.1, hr.2, hx2]
    nlinarith [hr.1]
  · have := Real.sin_le (show (0:ℝ) ≤ deg2rad (OC t) by linarith [hr.1])
    linarith [hr.2]

theorem EEO_bounds {t : ℝ} (h1 : (0.2046:ℝ) ≤ t) (h2 : t ≤ 0.2098) :
    0.016699 ≤ EEO t ∧ EEO t ≤ 0.016701 := by
  unfold EEO
  constructor <;> nlinarith

theorem varY_bounds {t : ℝ} (h1 : (0.2046:ℝ) ≤ t) (h2 : t ≤ 0.2098) :
    0 ≤ var_y t ∧ var_y t ≤ 0.04366 := by
  have ho := OC_bounds h1 h2
  have hπl := Real.pi_gt_3141592
  have hπu := Real.pi_lt_3141593
  have hhalf : deg2rad (OC t / 2) = deg2rad (OC t) / 2 := by unfold deg2rad; ring
  have hr := OCrad_bounds h1 h2
  have hx1 : (0.2045:ℝ) ≤ deg2rad (OC t / 2) := by rw [hhalf]; linarith [hr.1]
  have hx2 : deg2rad (OC t / 2) ≤ 0.2045465 := by rw [hhalf]; linarith [hr.2]
  have htan := tan_le_bound (show (0:ℝ) < deg2rad (OC t / 2) by linarith) (by linarith)
  have htpos : 0 ≤ tan (deg2rad (OC t / 2)) :=
    Real.tan_nonneg_of_nonneg_of_le_pi_div_two (by linarith) (by nlinarith)
  have hub : tan (deg2rad (OC t / 2)) ≤ 0.20893 := by
    have hden : (0.97907:ℝ) ≤ 1 - deg2rad (OC t / 2) ^ 2 / 2 := by nlinarith
    have hden0 : (0:ℝ) < 1 - deg2rad (OC t / 2) ^ 2 / 2 := by linarith
    have hq : deg2rad (OC t / 2) / (1 - deg2rad (OC t / 2) ^ 2 / 2) ≤ 0.20893 := by
      rw [div_le_iff hden0]
      nlinarith
    linarith
  unfold var_y
  constructor
  · positivity
  · nlinarith

set_option maxHeartbeats 1000000 in
theorem ET_abs_le {t : ℝ} (h1 : (0.2046:ℝ) ≤ t) (h2 : t ≤ 0.2098) : |ET t| ≤ 18.64 := by
  have hv := varY_bounds h1 h2
  have he := EEO_bounds h1 h2
  have hπl := Real.pi_gt_3141592
  have hπ0 := Real.pi_pos
  have hee0 : (0:ℝ) ≤ EEO t := by linarith [he.1]
  have hb1 := mul_mem_of_abs hv.1 hv.2 (Real.neg_one_le_sin (2 * deg2rad (GMLS t)))
    (Real.sin_le_one (2 * deg2rad (GMLS t)))
  have hb2 := mul_mem_of_abs hee0 he.2 (Real.neg_one_le_sin (deg2rad (GMAS t)))
    (Real.sin_le_one (deg2rad (GMAS t)))
  have hu0 : 0 ≤ EEO t * var_y t := mul_nonneg hee0 hv.1
  have huM : EEO t * var_y t ≤ 0.00072918 := by nlinarith [hee0, he.2, hv.1, hv.2]
  have hsc := prod_pm_one (Real.neg_one_le_sin (deg2rad (GMAS t)))
    (Real.sin_le_one (deg2rad (GMAS t))) (Real.neg_one_le_cos (2 * deg2rad (GMLS t)))
    (Real.cos_le_one (2 * deg2rad (GMLS t)))
  have hb3 := mul_mem_of_abs hu0 huM hsc.1 hsc.2
  have hv2M : var_y t ^ 2 ≤ 0.0019062 := by nlinarith [hv.1, hv.2]
  have hb4 := mul_mem_of_abs (sq_nonneg (var_y t)) hv2M
    (Real.neg_one_le_sin (4 * deg2rad (GMLS t))) (Real.sin_le_one (4 * deg2rad (GMLS t)))
  have he2M : EEO t ^ 2 ≤ 0.00027893 := by nlinarith [hee0, he.2]
  have hb5 := mul_mem_of_abs (sq_nonneg (EEO t)) he2M
    (Real.neg_one_le_sin (2 * deg2rad (GMAS t))) (Real.sin_le_one (2 * deg2rad (GMAS t)))
  have hpi57 : (180:ℝ) / π ≤ 57.2958 := by
    rw [div_le_iff hπ0]
    nlinarith
  have hpi57p : (0:ℝ) < 180 / π := by positivity
  have habs : |var_y t * sin (2 * deg2rad (GMLS t)) - 2 * EEO t * sin (deg2rad (GMAS t))
      + 4 * EEO t * var_y t * sin (deg2rad (GMAS t)) * cos (2 * deg2rad (GMLS t))
      - 0.5 * var_y t ^ 2 * sin (4 * deg2rad (GMLS t))
      - 1.25 * EEO t ^ 2 * sin (2 * deg2rad (GMAS t))| ≤ 0.081281 := by
    rw [abs_le]
    constructor <;>
      linarith [hb1.1, hb1.2, hb2.1, hb2.2, hb3.1, hb3.2, hb4.1, hb4.2, hb5.1, hb5.2]
  unfold ET rad2deg
  rw [abs_mul, abs_mul, abs_of_pos hpi57p, show |(4:ℝ)| = 4 by norm_num]
  nlinarith [habs, abs_nonneg (var_y t * sin (2 * deg2rad (GMLS t))
    - 2 * EEO t * sin (deg2rad (GMAS t))
    + 4 * EEO t * var_y t * sin (deg2rad (GMAS t)) * cos (2 * deg2rad (GMLS t))
    - 0.5 * var_y t ^ 2 * sin (4 * deg2rad (GMLS t))
    - 1.25 * EEO t ^ 2 * sin (2 * deg2rad (GMAS t)))]

theorem sd_facts {t : ℝ} (h1 : (0.2046:ℝ) ≤ t) (h2 : t ≤ 0.2098) :
    deg2rad (SD t) = arcsin (sin (deg2rad (OC t)) * sin (deg2rad (SAL t))) ∧
    sin (deg2rad (SD t)) = sin (deg2rad (OC t)) * sin (deg2rad (SAL t)) ∧
    0.912 ≤ cos (deg2rad (SD t)) := by
  have hA := sdArg_mem t
  have hs := sinOC_bounds h1 h2
  have hAb := mul_mem_of_abs (by linarith only [hs.1] : (0:ℝ) ≤ sin (deg2rad (OC t))) hs.2
    (Real.neg_one_le_sin (deg2rad (SAL t))) (Real.sin_le_one (deg2rad (SAL t)))
  have hsd : deg2rad (SD t) = arcsin (sin (deg2rad (OC t)) * sin (deg2rad (SAL t))) := by
    unfold SD
    rw [deg2rad_rad2deg]
  refine ⟨hsd, ?_, ?_⟩
  · rw [hsd, Real.sin_arcsin hA.1 hA.2]
  · rw [hsd, Real.cos_arcsin]
    have hsq : (sin (deg2rad (OC t)) * sin (deg2rad (SAL t))) ^ 2 ≤ 0.167363 := by
      nlinarith only [hAb.1, hAb.2]
    nlinarith only [hsq, Real.sq_sqrt (show (0:ℝ) ≤ 1 - (sin (deg2rad (OC t)) * sin (deg2rad (SAL t))) ^ 2
        by nlinarith only [hsq]),
      Real.sqrt_nonneg (1 - (sin (deg2rad (OC t)) * sin (deg2rad (SAL t))) ^ 2)]

set_option maxHeartbeats 2000000 in
theorem nonDegenerate_20200620 : NonDegenerate 44001 9 0 0 0 0 := by
  have hπl := Real.pi_gt_3141592
  have hπu := Real.pi_lt_3141593
  have hπ0 := Real.pi_pos
  have hT : (0.2046:ℝ) ≤ julianCentury (julianDay 44001 9 0 0) ∧
      julianCentury (julianDay 44001 9 0 0) ≤ 0.2098 := by
    unfold julianCentury julianDay
    norm_num
  obtain ⟨h1, h2⟩ := hT
  obtain ⟨hsd_eq, hsd_sin, hsd_cos⟩ := sd_facts h1 h2
  have hsd_cos1 := Real.cos_le_one (deg2rad (SD (julianCentury (julianDay 44001 9 0 0))))
  have hA := sdArg_mem (julianCentury (julianDay 44001 9 0 0))
  have hsOC := sinOC_bounds h1 h2
  have hAb := mul_mem_of_abs (by linarith only [hsOC.1] :
      (0:ℝ) ≤ sin (deg2rad (OC (julianCentury (julianDay 44001 9 0 0))))) hsOC.2
    (Real.neg_one_le_sin (deg2rad (SAL (julianCentury (julianDay 44001 9 0 0)))))
    (Real.sin_le_one (deg2rad (SAL (julianCentury (julianDay 44001 9 0 0)))))
  have hET := ET_abs_le h1 h2
  obtain ⟨hETl, hETu⟩ := abs_le.1 hET
  -- true solar time and hour angle at 09:00, lon = tz = 0
  have hTST : TST (julianCentury (julianDay 44001 9 0 0)) 9 0 0 0 =
      540 + ET (julianCentury (julianDay 44001 9 0 0)) := by
    unfold TST
    rw [show ((9:ℝ) * 60 + 0) / (24 * 60) * 1440 + ET (julianCentury (julianDay 44001 9 0 0))
        + 4 * 0 - 60 * 0 = 540 + ET (julianCentury (julianDay 44001 9 0 0)) by ring]
    exact npmod_eq_self (by linarith only [hETl]) (by linarith only [hETu])
  have hha : hourAngle (TST (julianCentury (julianDay 44001 9 0 0)) 9 0 0 0) =
      (540 + ET (julianCentury (julianDay 44001 9 0 0))) / 4 - 180 := by
    rw [hTST]
    exact hourAngle_eq_of_nonneg (by linarith only [hETl])
  have hharange : -49.66 ≤ hourAngle (TST (julianCentury (julianDay 44001 9 0 0)) 9 0 0 0) ∧
      hourAngle (TST (julianCentury (julianDay 44001 9 0 0)) 9 0 0 0) ≤ -40.34 := by
    rw [hha]
    constructor <;> linarith only [hETl, hETu]
  have hx1 : -0.86674 ≤ deg2rad (hourAngle (TST (julianCentury (julianDay 44001 9 0 0)) 9 0 0 0)) := by
    unfold deg2rad
    linarith only [hπu, hπ0,
      mul_nonneg (by linarith only [hharange.1] :
        (0:ℝ) ≤ hourAngle (TST (julianCentury (julianDay 44001 9 0 0)) 9 0 0 0) + 49.66)
        hπ0.le]
  have hx2 : deg2rad (hourAngle (TST (julianCentury (julianDay 44001 9 0 0)) 9 0 0 0)) ≤ -0.70406 := by
    unfold deg2rad
    linarith only [hπl, hπ0,
      mul_nonneg (by linarith only [hharange.2] :
        (0:ℝ) ≤ -40.34 - hourAngle (TST (julianCentury (julianDay 44001 9 0 0)) 9 0 0 0))
        hπ0.le]
  have hxsqu : deg2rad (hourAngle (TST (julianCentury (julianDay 44001 9 0 0)) 9 0 0 0)) ^ 2 ≤ 0.75124 := by
    nlinarith only [hx1, hx2]
  have hxsql : (0.4957:ℝ) ≤ deg2rad (hourAngle (TST (julianCentury (julianDay 44001 9 0 0)) 9 0 0 0)) ^ 2 := by
    nlinarith only [hx1, hx2]
  have hcosha_l : (0.6243:ℝ) ≤ cos (deg2rad (hourAngle (TST (julianCentury (julianDay 44001 9 0 0)) 9 0 0 0))) := by
    have hb := Real.one_sub_sq_div_two_le_cos
      (x := deg2rad (hourAngle (TST (julianCentury (julianDay 44001 9 0 0)) 9 0 0 0)))
    linarith only [hb, hxsqu]
  have hpisq : π ^ 2 ≤ 9.869607 := by nlinarith only [hπu, hπ0]
  have hcosha_u : cos (deg2rad (hourAngle (TST (julianCentury (julianDay 44001 9 0 0)) 9 0 0 0))) ≤ 0.8996 := by
    have hb := Real.cos_le_one_sub_mul_cos_sq
      (x := deg2rad (hourAngle (TST (julianCentury (julianDay 44001 9 0 0)) 9 0 0 0)))
      (by rw [abs_le]; constructor <;> linarith only [hx1, hx2, hπl])
    have hq : (0.1004:ℝ) ≤ 2 / π ^ 2 *
        deg2rad (hourAngle (TST (julianCentury (julianDay 44001 9 0 0)) 9 0 0 0)) ^ 2 := by
      rw [div_mul_eq_mul_div, le_div_iff (by positivity)]
      linarith only [hpisq, hxsql]
    linarith only [hb, hq]
  -- the zenith argument at lat = 0
  have hw_eq : sin (deg2rad 0) * sin (deg2rad (SD (julianCentury (julianDay 44001 9 0 0))))
      + cos (deg2rad 0) * cos (deg2rad (SD (julianCentury (julianDay 44001 9 0 0))))
        * cos (deg2rad (hourAngle (TST (julianCentury (julianDay 44001 9 0 0)) 9 0 0 0))) =
      cos (deg2rad (SD (julianCentury (julianDay 44001 9 0 0))))
        * cos (deg2rad (hourAngle (TST (julianCentury (julianDay 44001 9 0 0)) 9 0 0 0))) := by
    rw [deg2rad_zero, Real.sin_zero, Real.cos_zero]
    ring
  have hw_l : (0.5693:ℝ) ≤ cos (deg2rad (SD (julianCentury (julianDay 44001 9 0 0))))
      * cos (deg2rad (hourAngle (TST (julianCentury (julianDay 44001 9 0 0)) 9 0 0 0))) := by
    nlinarith only [hsd_cos, hsd_cos1, hcosha_l, hcosha_u]
  have hw_u : cos (deg2rad (SD (julianCentury (julianDay 44001 9 0 0))))
      * cos (deg2rad (hourAngle (TST (julianCentury (julianDay 44001 9 0 0)) 9 0 0 0))) ≤ 0.8996 := by
    nlinarith only [hsd_cos, hsd_cos1, hcosha_l, hcosha_u]
  have hsza_eq : deg2rad (SZA (julianCentury (julianDay 44001 9 0 0)) 0
      (hourAngle (TST (julianCentury (julianDay 44001 9 0 0)) 9 0 0 0))) =
      arccos (sin (deg2rad 0) * sin (deg2rad (SD (julianCentury (julianDay 44001 9 0 0))))
        + cos (deg2rad 0) * cos (deg2rad (SD (julianCentury (julianDay 44001 9 0 0))))
          * cos (deg2rad (hourAngle (TST (julianCentury (julianDay 44001 9 0 0)) 9 0 0 0)))) := by
    unfold SZA
    rw [deg2rad_rad2deg]
  have hiden : (sin (deg2rad (OC (julianCentury (julianDay 44001 9 0 0))))
        * sin (deg2rad (SAL (julianCentury (julianDay 44001 9 0 0))))) ^ 2
      + cos (deg2rad (SD (julianCentury (julianDay 44001 9 0 0)))) ^ 2 = 1 := by
    have h := Real.sin_sq_add_cos_sq (deg2rad (SD (julianCentury (julianDay 44001 9 0 0))))
    rw [hsd_sin] at h
    exact h
  have hw2A : (cos (deg2rad (SD (julianCentury (julianDay 44001 9 0 0))))
        * cos (deg2rad (hourAngle (TST (julianCentury (julianDay 44001 9 0 0)) 9 0 0 0)))) ^ 2
      ≤ 1 - (sin (deg2rad (OC (julianCentury (julianDay 44001 9 0 0))))
        * sin (deg2rad (SAL (julianCentury (julianDay 44001 9 0 0))))) ^ 2 := by
    nlinarith only [Real.cos_sq_le_one
      (deg2rad (hourAngle (TST (julianCentury (julianDay 44001 9 0 0)) 9 0 0 0))),
      sq_nonneg (cos (deg2rad (SD (julianCentury (julianDay 44001 9 0 0))))), hiden]
  have hsinZ_eq : sin (deg2rad (SZA (julianCentury (julianDay 44001 9 0 0)) 0
      (hourAngle (TST (julianCentury (julianDay 44001 9 0 0)) 9 0 0 0)))) =
      Real.sqrt (1 - (sin (deg2rad 0) * sin (deg2rad (SD (julianCentury (julianDay 44001 9 0 0))))
        + cos (deg2rad 0) * cos (deg2rad (SD (julianCentury (julianDay 44001 9 0 0))))
          * cos (deg2rad (hourAngle (TST (julianCentury (julianDay 44001 9 0 0)) 9 0 0 0)))) ^ 2) := by
    rw [hsza_eq, Real.sin_arccos]
  rw [hw_eq] at hsinZ_eq
  have hsinZ_lb : (0.4367:ℝ) ≤ sin (deg2rad (SZA (julianCentury (julianDay 44001 9 0 0)) 0
      (hourAngle (TST (julianCentury (julianDay 44001 9 0 0)) 9 0 0 0)))) := by
    rw [hsinZ_eq]
    have hrange : (0:ℝ) ≤ 1 - (cos (deg2rad (SD (julianCentury (julianDay 44001 9 0 0))))
        * cos (deg2rad (hourAngle (TST (julianCentury (julianDay 44001 9 0 0)) 9 0 0 0)))) ^ 2 := by
      nlinarith only [hw_l, hw_u]
    nlinarith only [hw_l, hw_u, Real.sq_sqrt hrange, Real.sqrt_nonneg
      (1 - (cos (deg2rad (SD (julianCentury (julianDay 44001 9 0 0))))
        * cos (deg2rad (hourAngle (TST (julianCentury (julianDay 44001 9 0 0)) 9 0 0 0)))) ^ 2)]
  have hsinZ_sq : sin (deg2rad (SZA (julianCentury (julianDay 44001 9 0 0)) 0
        (hourAngle (TST (julianCentury (julianDay 44001 9 0 0)) 9 0 0 0)))) ^ 2 =
      1 - (cos (deg2rad (SD (julianCentury (julianDay 44001 9 0 0))))
        * cos (deg2rad (hourAngle (TST (julianCentury (julianDay 44001 9 0 0)) 9 0 0 0)))) ^ 2 := by
    rw [hsinZ_eq]
    refine Real.sq_sqrt ?_
    nlinarith only [hw_l, hw_u]
  have hAleZ : sin (deg2rad (OC (julianCentury (julianDay 44001 9 0 0))))
        * sin (deg2rad (SAL (julianCentury (julianDay 44001 9 0 0)))) ≤
      sin (deg2rad (SZA (julianCentury (julianDay 44001 9 0 0)) 0
        (hourAngle (TST (julianCentury (julianDay 44001 9 0 0)) 9 0 0 0)))) := by
    nlinarith only [hsinZ_sq, hsinZ_lb, hw2A]
  have hAgeZ : -(sin (deg2rad (SZA (julianCentury (julianDay 44001 9 0 0)) 0
        (hourAngle (TST (julianCentury (julianDay 44001 9 0 0)) 9 0 0 0))))) ≤
      sin (deg2rad (OC (julianCentury (julianDay 44001 9 0 0))))
        * sin (deg2rad (SAL (julianCentury (julianDay 44001 9 0 0)))) := by
    nlinarith only [hsinZ_sq, hsinZ_lb, hw2A]
  have hEEO := EEO_bounds h1 h2
  refine ⟨⟨hA.1, hA.2⟩, ?_, ?_, ?_, ?_, ?_, ?_, ?_⟩
  · exact zArg_mem _ _ _
  · -- the HAS arccos argument at lat = 0
    have hden_eq : cos (deg2rad (0:ℝ))
        * cos (deg2rad (SD (julianCentury (julianDay 44001 9 0 0)))) =
        cos (deg2rad (SD (julianCentury (julianDay 44001 9 0 0)))) := by
      rw [deg2rad_zero, Real.cos_zero, one_mul]
    have htan0 : tan (deg2rad (0:ℝ))
        * tan (deg2rad (SD (julianCentury (julianDay 44001 9 0 0)))) = 0 := by
      rw [deg2rad_zero, Real.tan_zero, zero_mul]
    rw [hden_eq, htan0, sub_zero]
    have hsplit : deg2rad 90.833 = π / 2 + 0.833 * (π / 180) := by
      unfold deg2rad
      ring
    have hcos_eq : cos (deg2rad 90.833) = -sin (0.833 * (π / 180)) := by
      rw [hsplit, Real.cos_add]
      simp
    have hy1 : (0:ℝ) ≤ 0.833 * (π / 180) := by positivity
    have hy2 : (0.833:ℝ) * (π / 180) ≤ 0.0145386 := by linarith only [hπu]
    have hsy1 : 0 ≤ sin (0.833 * (π / 180)) :=
      Real.sin_nonneg_of_nonneg_of_le_pi hy1 (by linarith only [hy2, hπl])
    have hsy2 : sin (0.833 * (π / 180)) ≤ 0.0145386 :=
      le_trans (Real.sin_le hy1) hy2
    have hc90_l : -(0.0145386:ℝ) ≤ cos (deg2rad 90.833) := by rw [hcos_eq]; linarith only [hsy2]
    have hc90_u : cos (deg2rad 90.833) ≤ 0 := by rw [hcos_eq]; linarith only [hsy1]
    constructor
    · rw [le_div_iff (by linarith only [hsd_cos] : (0:ℝ) <
        cos (deg2rad (SD (julianCentury (julianDay 44001 9 0 0)))))]
      linarith only [hc90_l, hsd_cos]
    · rw [div_le_one (by linarith only [hsd_cos] : (0:ℝ) <
        cos (deg2rad (SD (julianCentury (julianDay 44001 9 0 0)))))]
      linarith only [hc90_u, hsd_cos]
  · -- the azimuth arccos argument at lat = 0
    have hnum : sin (deg2rad (0:ℝ)) * cos (deg2rad (SZA (julianCentury (julianDay 44001 9 0 0)) 0
          (hourAngle (TST (julianCentury (julianDay 44001 9 0 0)) 9 0 0 0))))
        - sin (deg2rad (SD (julianCentury (julianDay 44001 9 0 0)))) =
        -(sin (deg2rad (OC (julianCentury (julianDay 44001 9 0 0))))
          * sin (deg2rad (SAL (julianCentury (julianDay 44001 9 0 0))))) := by
      rw [deg2rad_zero, Real.sin_zero, zero_mul, zero_sub, hsd_sin]
    have hden : cos (deg2rad (0:ℝ)) * sin (deg2rad (SZA (julianCentury (julianDay 44001 9 0 0)) 0
          (hourAngle (TST (julianCentury (julianDay 44001 9 0 0)) 9 0 0 0)))) =
        sin (deg2rad (SZA (julianCentury (julianDay 44001 9 0 0)) 0
          (hourAngle (TST (julianCentury (julianDay 44001 9 0 0)) 9 0 0 0)))) := by
      rw [deg2rad_zero, Real.cos_zero, one_mul]
    rw [hnum, hden]
    constructor
    · rw [le_div_iff (by linarith only [hsinZ_lb] : (0:ℝ) <
        sin (deg2rad (SZA (julianCentury (julianDay 44001 9 0 0)) 0
          (hourAngle (TST (julianCentury (julianDay 44001 9 0 0)) 9 0 0 0)))))]
      linarith only [hAleZ]
    · rw [div_le_one (by linarith only [hsinZ_lb] : (0:ℝ) <
        sin (deg2rad (SZA (julianCentury (julianDay 44001 9 0 0)) 0
          (hourAngle (TST (julianCentury (julianDay 44001 9 0 0)) 9 0 0 0)))))]
      linarith only [hAgeZ]
  · rw [deg2rad_zero, Real.cos_zero, one_mul]
    exact ne_of_gt (by linarith only [hsd_cos])
  · rw [deg2rad_zero, Real.cos_zero, one_mul]
    exact ne_of_gt (by linarith only [hsinZ_lb])
  · have hb := mul_mem_of_abs (by linarith only [hEEO.1] :
        (0:ℝ) ≤ EEO (julianCentury (julianDay 44001 9 0 0))) hEEO.2
      (Real.neg_one_le_cos (deg2rad (STA (julianCentury (julianDay 44001 9 0 0)))))
      (Real.cos_le_one (deg2rad (STA (julianCentury (julianDay 44001 9 0 0)))))
    exact ne_of_gt (by linarith only [hb.1])
  · intro hcon
    have hSEA : SEA (julianCentury (julianDay 44001 9 0 0)) 0
        (hourAngle (TST (julianCentury (julianDay 44001 9 0 0)) 9 0 0 0)) =
        90 - rad2deg (arccos (sin (deg2rad 0)
          * sin (deg2rad (SD (julianCentury (julianDay 44001 9 0 0))))
          + cos (deg2rad 0) * cos (deg2rad (SD (julianCentury (julianDay 44001 9 0 0))))
            * cos (deg2rad (hourAngle (TST (julianCentury (julianDay 44001 9 0 0)) 9 0 0 0))))) :=
      rfl
    have hw0 : (0:ℝ) ≤ sin (deg2rad 0) * sin (deg2rad (SD (julianCentury (julianDay 44001 9 0 0))))
        + cos (deg2rad 0) * cos (deg2rad (SD (julianCentury (julianDay 44001 9 0 0))))
          * cos (deg2rad (hourAngle (TST (julianCentury (julianDay 44001 9 0 0)) 9 0 0 0))) := by
      rw [hw_eq]
      linarith only [hw_l]
    have harc : arccos (sin (deg2rad 0) * sin (deg2rad (SD (julianCentury (julianDay 44001 9 0 0))))
        + cos (deg2rad 0) * cos (deg2rad (SD (julianCentury (julianDay 44001 9 0 0))))
          * cos (deg2rad (hourAngle (TST (julianCentury (julianDay 44001 9 0 0)) 9 0 0 0))))
        ≤ π / 2 := Real.arccos_le_pi_div_two.2 hw0
    have hrd : rad2deg (arccos (sin (deg2rad 0)
        * sin (deg2rad (SD (julianCentury (julianDay 44001 9 0 0))))
        + cos (deg2rad 0) * cos (deg2rad (SD (julianCentury (julianDay 44001 9 0 0))))
          * cos (deg2rad (hourAngle (TST (julianCentury (julianDay 44001 9 0 0)) 9 0 0 0)))))
        ≤ 90 := by
      unfold rad2deg
      have hmul := mul_le_mul_of_nonneg_right harc
        (by positivity : (0:ℝ) ≤ 180 / π)
      have hid : π / 2 * (180 / π) = 90 := by
        field_simp
        ring
      linarith only [hmul, hid]
    rw [hSEA] at hcon
    linarith only [hcon, hrd]

theorem solar_angleCore_fst (days : ℤ) (hour minute tz lat lon : ℝ) :
    (solar_angleCore days hour minute tz lat lon).1 =
      SEA (julianCentury (julianDay days hour minute tz)) lat
          (hourAngle (TST (julianCentury (julianDay days hour minute tz)) hour minute lon tz))
        + AAR (SEA (julianCentury (julianDay days hour minute tz)) lat
          (hourAngle (TST (julianCentury (julianDay days hour minute tz)) hour minute lon tz)))
          / 3600 := rfl

theorem solar_angleCore_snd (days : ℤ) (hour minute tz lat lon : ℝ) :
    (solar_angleCore days hour minute tz lat lon).2 =
      SAA (julianCentury (julianDay days hour minute tz)) lat
        (hourAngle (TST (julianCentury (julianDay days hour minute tz)) hour minute lon tz))
        (SZA (julianCentury (julianDay days hour minute tz)) lat
          (hourAngle (TST (julianCentury (julianDay days hour minute tz)) hour minute lon tz))) :=
  rfl

/-- Claim C6: under the non-degeneracy hypothesis (every
inverse-trigonometric argument in `[-1, 1]`, every divisor nonzero), the
azimuth returned by `solar_angle` lies in `[0, 360)` and the corrected
elevation lies in `[-90, 90]`. -/
theorem output_ranges (days : ℤ) (hour minute tz lat lon : ℝ)
    (h : NonDegenerate days hour minute tz lat lon) :
    0 ≤ (solar_angleCore days hour minute tz lat lon).2 ∧
    (solar_angleCore days hour minute tz lat lon).2 < 360 ∧
    -90 ≤ (solar_angleCore days hour minute tz lat lon).1 ∧
    (solar_angleCore days hour minute tz lat lon).1 ≤ 90 := by
  have haz1 : 0 ≤ (solar_angleCore days hour minute tz lat lon).2 := by
    rw [solar_angleCore_snd]
    unfold SAA
    split_ifs <;> exact npmod_nonneg _ (by norm_num)
  have haz2 : (solar_angleCore days hour minute tz lat lon).2 < 360 := by
    rw [solar_angleCore_snd]
    unfold SAA
    split_ifs <;> exact npmod_lt _ (by norm_num)
  have hsea := SEA_mem (julianCentury (julianDay days hour minute tz)) lat
    (hourAngle (TST (julianCentury (julianDay days hour minute tz)) hour minute lon tz))
  have helev := corrected_elevation_mem hsea.1 hsea.2
  rw [solar_angleCore_fst]
  exact ⟨haz1, haz2, helev.1, helev.2⟩

/-- Witness for `output_ranges`: the non-degeneracy hypothesis holds at
2020-06-20 09:00 UTC at latitude 0, longitude 0 (day count 44001 from
1899-12-31), and the ranges follow. -/
theorem output_ranges_witness :
    NonDegenerate 44001 9 0 0 0 0 ∧
    (0 ≤ (solar_angleCore 44001 9 0 0 0 0).2 ∧
      (solar_angleCore 44001 9 0 0 0 0).2 < 360 ∧
      -90 ≤ (solar_angleCore 44001 9 0 0 0 0).1 ∧
      (solar_angleCore 44001 9 0 0 0 0).1 ≤ 90) :=
  ⟨nonDegenerate_20200620, output_ranges 44001 9 0 0 0 0 nonDegenerate_20200620⟩

/-! ## The North-Pole / polar-night scenario (2020-12-21 12:00 UTC,
day count 44185, lat = 90, lon = 0, tz = 0). -/

theorem rad2deg_deg2rad (x : ℝ) : rad2deg (deg2rad x) = x := by
  unfold deg2rad rad2deg
  field_simp

theorem deg2rad_ninety_sub (x : ℝ) : deg2rad (90 - rad2deg x) = π / 2 - x := by
  unfold deg2rad rad2deg
  field_simp
  ring

theorem cos_three_pi_div_two : Real.cos (3 * π / 2) = 0 := by
  rw [show (3 * π / 2 : ℝ) = π + π / 2 by ring, Real.cos_add]
  simp

theorem sin_three_pi_div_two : Real.sin (3 * π / 2) = -1 := by
  rw [show (3 * π / 2 : ℝ) = π + π / 2 by ring, Real.sin_add]
  simp

theorem SDq_eq (t : ℝ) : SDq t = some (SD t) := by
  unfold SDq asinQ SD
  rw [if_pos ⟨(sdArg_mem t).1, (sdArg_mem t).2⟩]
  rfl

theorem SZAq_eq (t lat ha : ℝ) : SZAq t lat ha = some (SZA t lat ha) := by
  unfold SZAq SZA
  rw [SDq_eq]
  simp only [Option.bind_eq_bind, Option.some_bind]
  unfold acosQ
  rw [if_pos ⟨(zArg_mem (deg2rad lat) (deg2rad (SD t)) (deg2rad ha)).1,
    (zArg_mem (deg2rad lat) (deg2rad (SD t)) (deg2rad ha)).2⟩]
  rfl

theorem AARq_eq_low {e : ℝ} (h1 : ¬ e > -0.575) (h2 : cos (deg2rad e) ≠ 0)
    (h3 : tan (deg2rad e) ≠ 0) : AARq e = some (AAR e) := by
  have h85 : ¬ e > 85 := fun hc => h1 (by linarith)
  have h5 : ¬ e > 5 := fun hc => h1 (by linarith)
  unfold AARq AAR
  simp only [if_neg h85, if_neg h5, if_neg h1]
  unfold tanQ
  rw [if_neg h2]
  simp only [Option.bind_eq_bind, Option.some_bind]
  unfold divQ
  rw [if_neg h3]

theorem t3_range : (0.2046:ℝ) ≤ julianCentury (julianDay 44185 12 0 0) ∧
    julianCentury (julianDay 44185 12 0 0) ≤ 0.2098 := by
  unfold julianCentury julianDay
  norm_num

theorem GMLS3_bounds : 270.52 ≤ GMLS (julianCentury (julianDay 44185 12 0 0)) ∧
    GMLS (julianCentury (julianDay 44185 12 0 0)) ≤ 270.53 := by
  have ht : julianCentury (julianDay 44185 12 0 0) = 1532 / 7305 := by
    unfold julianCentury julianDay
    norm_num
  rw [ht]
  unfold GMLS npmod
  have hfl : ⌊(280.46646 + 1532 / 7305 * (36000.76983 + 1532 / 7305 * 0.0003032) : ℝ) / 360⌋
      = 21 := by
    rw [Int.floor_eq_iff]
    constructor
    · push_cast
      norm_num
    · push_cast
      norm_num
  rw [hfl]
  constructor <;> norm_num

theorem SEC_abs_le {t : ℝ} (h1 : (0.2046:ℝ) ≤ t) (h2 : t ≤ 0.2098) :
    |sunEqCtr t| ≤ 1.934 := by
  have hc1l : (1.91358:ℝ) ≤ 1.914602 - t * (0.004817 + 0.000014 * t) := by nlinarith
  have hc1u : 1.914602 - t * (0.004817 + 0.000014 * t) ≤ 1.91362 := by nlinarith
  have hc2l : (0.01997:ℝ) ≤ 0.019993 - 0.000101 * t := by nlinarith
  have hc2u : 0.019993 - 0.000101 * t ≤ 0.019973 := by nlinarith
  have hb1 := mul_mem_of_abs (by linarith only [hc1l]) hc1u
    (Real.neg_one_le_sin (deg2rad (GMAS t))) (Real.sin_le_one (deg2rad (GMAS t)))
  have hb2 := mul_mem_of_abs (by linarith only [hc2l]) hc2u
    (Real.neg_one_le_sin (deg2rad (2 * GMAS t))) (Real.sin_le_one (deg2rad (2 * GMAS t)))
  have hb3 := mul_mem_of_abs (show (0:ℝ) ≤ 0.000289 by norm_num) (le_refl (0.000289:ℝ))
    (Real.neg_one_le_sin (deg2rad (3 * GMAS t))) (Real.sin_le_one (deg2rad (3 * GMAS t)))
  unfold sunEqCtr
  rw [abs_le]
  constructor <;> linarith only [hb1.1, hb1.2, hb2.1, hb2.2, hb3.1, hb3.2]

theorem sinSAL3_le :
    sin (deg2rad (SAL (julianCentury (julianDay 44185 12 0 0)))) ≤ -0.999 := by
  have hπl := Real.pi_gt_3141592
  have hπu := Real.pi_lt_3141593
  obtain ⟨h1, h2⟩ := t3_range
  have hG := GMLS3_bounds
  have hS := SEC_abs_le h1 h2
  obtain ⟨hSl, hSu⟩ := abs_le.1 hS
  have hsin1 := Real.neg_one_le_sin
    (deg2rad (125.04 - 1934.136 * julianCentury (julianDay 44185 12 0 0)))
  have hsin2 := Real.sin_le_one
    (deg2rad (125.04 - 1934.136 * julianCentury (julianDay 44185 12 0 0)))
  have hSAL : 268.575 ≤ SAL (julianCentury (julianDay 44185 12 0 0)) ∧
      SAL (julianCentury (julianDay 44185 12 0 0)) ≤ 272.464 := by
    unfold SAL STL
    constructor <;> linarith only [hG.1, hG.2, hSl, hSu, hsin1, hsin2]
  have hrad1 : (4.68751:ℝ) ≤ deg2rad (SAL (julianCentury (julianDay 44185 12 0 0))) := by
    unfold deg2rad
    nlinarith only [hSAL.1, hπl,
      mul_nonneg (by linarith only [hSAL.1] :
        (0:ℝ) ≤ SAL (julianCentury (julianDay 44185 12 0 0)) - 268.575)
        (by linarith only [hπl] : (0:ℝ) ≤ π - 3.141592)]
  have hrad2 : deg2rad (SAL (julianCentury (julianDay 44185 12 0 0))) ≤ 4.75540 := by
    unfold deg2rad
    nlinarith only [hSAL.2, hπu, hπl,
      mul_nonneg (by linarith only [hSAL.2] :
        (0:ℝ) ≤ 272.464 - SAL (julianCentury (julianDay 44185 12 0 0)))
        (by linarith only [hπu] : (0:ℝ) ≤ 3.141593 - π)]
  have hδl : -0.02488 ≤ deg2rad (SAL (julianCentury (julianDay 44185 12 0 0))) - 3 * π / 2 := by
    linarith only [hrad1, hπu]
  have hδu : deg2rad (SAL (julianCentury (julianDay 44185 12 0 0))) - 3 * π / 2 ≤ 0.043012 := by
    linarith only [hrad2, hπl]
  have hδsq : (deg2rad (SAL (julianCentury (julianDay 44185 12 0 0))) - 3 * π / 2) ^ 2
      ≤ 0.0018501 := by
    nlinarith only [hδl, hδu]
  have hid : cos (deg2rad (SAL (julianCentury (julianDay 44185 12 0 0))) - 3 * π / 2) =
      -sin (deg2rad (SAL (julianCentury (julianDay 44185 12 0 0)))) := by
    rw [Real.cos_sub, cos_three_pi_div_two, sin_three_pi_div_two]
    ring
  have hcosδ := Real.one_sub_sq_div_two_le_cos
    (x := deg2rad (SAL (julianCentury (julianDay 44185 12 0 0))) - 3 * π / 2)
  linarith only [hcosδ, hδsq, hid]

theorem A3_bounds :
    sin (deg2rad (OC (julianCentury (julianDay 44185 12 0 0))))
      * sin (deg2rad (SAL (julianCentury (julianDay 44185 12 0 0)))) ≤ -0.391 ∧
    -0.40910 ≤ sin (deg2rad (OC (julianCentury (julianDay 44185 12 0 0))))
      * sin (deg2rad (SAL (julianCentury (julianDay 44185 12 0 0)))) := by
  obtain ⟨h1, h2⟩ := t3_range
  have hsOC := sinOC_bounds h1 h2
  have hsal := sinSAL3_le
  have hsal1 := Real.neg_one_le_sin (deg2rad (SAL (julianCentury (julianDay 44185 12 0 0))))
  constructor
  · nlinarith only [hsOC.1, hsOC.2, hsal,
      mul_nonneg (by linarith only [hsOC.1] :
        (0:ℝ) ≤ sin (deg2rad (OC (julianCentury (julianDay 44185 12 0 0)))) - 0.3918)
        (by linarith only [hsal] :
        (0:ℝ) ≤ -0.999 - sin (deg2rad (SAL (julianCentury (julianDay 44185 12 0 0)))))]
  · nlinarith only [hsOC.2, hsal1, hsOC.1,
      mul_nonneg (by linarith only [hsOC.1] :
        (0:ℝ) ≤ sin (deg2rad (OC (julianCentury (julianDay 44185 12 0 0)))))
        (by linarith only [hsal1] :
        (0:ℝ) ≤ sin (deg2rad (SAL (julianCentury (julianDay 44185 12 0 0)))) + 1)]

set_option maxHeartbeats 1000000 in
theorem pole_facts :
    SEA (julianCentury (julianDay 44185 12 0 0)) 90
        (hourAngle (TST (julianCentury (julianDay 44185 12 0 0)) 12 0 0 0)) ≤ -22.40 ∧
    -34.38 ≤ SEA (julianCentury (julianDay 44185 12 0 0)) 90
        (hourAngle (TST (julianCentury (julianDay 44185 12 0 0)) 12 0 0 0)) ∧
    cos (deg2rad (SEA (julianCentury (julianDay 44185 12 0 0)) 90
        (hourAngle (TST (julianCentury (julianDay 44185 12 0 0)) 12 0 0 0)))) ≠ 0 ∧
    tan (deg2rad (SEA (julianCentury (julianDay 44185 12 0 0)) 90
        (hourAngle (TST (julianCentury (julianDay 44185 12 0 0)) 12 0 0 0)))) ≠ 0 ∧
    0 < AAR (SEA (julianCentury (julianDay 44185 12 0 0)) 90
        (hourAngle (TST (julianCentury (julianDay 44185 12 0 0)) 12 0 0 0))) ∧
    AAR (SEA (julianCentury (julianDay 44185 12 0 0)) 90
        (hourAngle (TST (julianCentury (julianDay 44185 12 0 0)) 12 0 0 0))) ≤ 53.2 := by
  have hπl := Real.pi_gt_3141592
  have hπu := Real.pi_lt_3141593
  have hπ0 := Real.pi_pos
  obtain ⟨h1, h2⟩ := t3_range
  obtain ⟨hsd_eq, hsd_sin, hsd_cos⟩ := sd_facts h1 h2
  obtain ⟨hA3u, hA3l⟩ := A3_bounds
  have hA3_11 := sdArg_mem (julianCentury (julianDay 44185 12 0 0))
  have hql : (57.2957:ℝ) ≤ 180 / π := by
    rw [le_div_iff hπ0]
    nlinarith only [hπu]
  have hqu : (180:ℝ) / π ≤ 57.2958 := by
    rw [div_le_iff hπ0]
    nlinarith only [hπl]
  have h0 : SEA (julianCentury (julianDay 44185 12 0 0)) 90
      (hourAngle (TST (julianCentury (julianDay 44185 12 0 0)) 12 0 0 0)) =
      90 - rad2deg (arccos (sin (deg2rad (90:ℝ))
        * sin (deg2rad (SD (julianCentury (julianDay 44185 12 0 0))))
        + cos (deg2rad (90:ℝ)) * cos (deg2rad (SD (julianCentury (julianDay 44185 12 0 0))))
          * cos (deg2rad (hourAngle (TST (julianCentury (julianDay 44185 12 0 0)) 12 0 0 0))))) :=
    rfl
  have hw : sin (deg2rad (90:ℝ)) * sin (deg2rad (SD (julianCentury (julianDay 44185 12 0 0))))
      + cos (deg2rad (90:ℝ)) * cos (deg2rad (SD (julianCentury (julianDay 44185 12 0 0))))
        * cos (deg2rad (hourAngle (TST (julianCentury (julianDay 44185 12 0 0)) 12 0 0 0))) =
      sin (deg2rad (OC (julianCentury (julianDay 44185 12 0 0))))
        * sin (deg2rad (SAL (julianCentury (julianDay 44185 12 0 0)))) := by
    rw [show deg2rad (90:ℝ) = π / 2 by unfold deg2rad; ring,
      Real.sin_pi_div_two, Real.cos_pi_div_two, hsd_sin]
    ring
  rw [hw] at h0
  have hdeg : deg2rad (SEA (julianCentury (julianDay 44185 12 0 0)) 90
      (hourAngle (TST (julianCentury (julianDay 44185 12 0 0)) 12 0 0 0))) =
      arcsin (sin (deg2rad (OC (julianCentury (julianDay 44185 12 0 0))))
        * sin (deg2rad (SAL (julianCentury (julianDay 44185 12 0 0))))) := by
    rw [h0, deg2rad_ninety_sub, Real.arccos_eq_pi_div_two_sub_arcsin]
    ring
  have harcsin_u : arcsin (sin (deg2rad (OC (julianCentury (julianDay 44185 12 0 0))))
      * sin (deg2rad (SAL (julianCentury (julianDay 44185 12 0 0))))) ≤ -0.391 := by
    have hA3neg : sin (deg2rad (OC (julianCentury (julianDay 44185 12 0 0))))
        * sin (deg2rad (SAL (julianCentury (julianDay 44185 12 0 0)))) ≤ 0 := by
      linarith only [hA3u]
    have h := Real.le_sin (Real.arcsin_nonpos.2 hA3neg)
    rw [Real.sin_arcsin hA3_11.1 hA3_11.2] at h
    linarith only [h, hA3u]
  have harcsin_l : -0.6 < arcsin (sin (deg2rad (OC (julianCentury (julianDay 44185 12 0 0))))
      * sin (deg2rad (SAL (julianCentury (julianDay 44185 12 0 0))))) := by
    by_contra hcon
    push_neg at hcon
    have hmem1 := Real.arcsin_mem_Icc (sin (deg2rad (OC (julianCentury (julianDay 44185 12 0 0))))
      * sin (deg2rad (SAL (julianCentury (julianDay 44185 12 0 0)))))
    have hmem2 : (-0.6:ℝ) ∈ Set.Icc (-(π/2)) (π/2) := by
      constructor <;> [linarith only [hπl]; linarith only [hπl]]
    have hmono := Real.strictMonoOn_sin.monotoneOn hmem1 hmem2 hcon
    rw [Real.sin_arcsin hA3_11.1 hA3_11.2] at hmono
    have hs06 : sin (-0.6:ℝ) ≤ -0.546 := by
      rw [show (-0.6:ℝ) = -(0.6) by norm_num, Real.sin_neg]
      have h := Real.sin_gt_sub_cube (show (0:ℝ) < 0.6 by norm_num) (by norm_num)
      linarith only [h]
    linarith only [hmono, hs06, hA3l]
  have hcos_pos : 0 < cos (deg2rad (SEA (julianCentury (julianDay 44185 12 0 0)) 90
      (hourAngle (TST (julianCentury (julianDay 44185 12 0 0)) 12 0 0 0)))) := by
    rw [hdeg]
    apply Real.cos_pos_of_mem_Ioo
    constructor
    · linarith only [harcsin_l, hπl]
    · linarith only [harcsin_u, hπl]
  have hsin_neg : sin (deg2rad (SEA (julianCentury (julianDay 44185 12 0 0)) 90
      (hourAngle (TST (julianCentury (julianDay 44185 12 0 0)) 12 0 0 0)))) < 0 := by
    rw [hdeg, Real.sin_arcsin hA3_11.1 hA3_11.2]
    linarith only [hA3u]
  have htan_neg : tan (deg2rad (SEA (julianCentury (julianDay 44185 12 0 0)) 90
      (hourAngle (TST (julianCentury (julianDay 44185 12 0 0)) 12 0 0 0)))) < 0 := by
    rw [Real.tan_eq_sin_div_cos]
    exact div_neg_of_neg_of_pos hsin_neg hcos_pos
  have hSEA2 : SEA (julianCentury (julianDay 44185 12 0 0)) 90
      (hourAngle (TST (julianCentury (julianDay 44185 12 0 0)) 12 0 0 0)) =
      rad2deg (arcsin (sin (deg2rad (OC (julianCentury (julianDay 44185 12 0 0))))
        * sin (deg2rad (SAL (julianCentury (julianDay 44185 12 0 0)))))) := by
    have h := congrArg rad2deg hdeg
    rwa [rad2deg_deg2rad] at h
  have hSEA_u : SEA (julianCentury (julianDay 44185 12 0 0)) 90
      (hourAngle (TST (julianCentury (julianDay 44185 12 0 0)) 12 0 0 0)) ≤ -22.40 := by
    rw [hSEA2]
    unfold rad2deg
    nlinarith only [harcsin_u, hql, hqu,
      mul_nonneg (by linarith only [harcsin_u] :
        (0:ℝ) ≤ -0.391 - arcsin (sin (deg2rad (OC (julianCentury (julianDay 44185 12 0 0))))
          * sin (deg2rad (SAL (julianCentury (julianDay 44185 12 0 0))))))
        (by linarith only [hql] : (0:ℝ) ≤ 180 / π - 57.2957)]
  have hSEA_l : -34.38 ≤ SEA (julianCentury (julianDay 44185 12 0 0)) 90
      (hourAngle (TST (julianCentury (julianDay 44185 12 0 0)) 12 0 0 0)) := by
    rw [hSEA2]
    unfold rad2deg
    nlinarith only [harcsin_l, hql, hqu,
      mul_nonneg (by linarith only [harcsin_l] :
        (0:ℝ) ≤ arcsin (sin (deg2rad (OC (julianCentury (julianDay 44185 12 0 0))))
          * sin (deg2rad (SAL (julianCentury (julianDay 44185 12 0 0))))) + 0.6)
        (by linarith only [hql] : (0:ℝ) ≤ 180 / π)]
  have hAAR_eq : AAR (SEA (julianCentury (julianDay 44185 12 0 0)) 90
      (hourAngle (TST (julianCentury (julianDay 44185 12 0 0)) 12 0 0 0))) =
      -20.772 / tan (deg2rad (SEA (julianCentury (julianDay 44185 12 0 0)) 90
        (hourAngle (TST (julianCentury (julianDay 44185 12 0 0)) 12 0 0 0)))) := by
    unfold AAR
    rw [if_neg (by linarith only [hSEA_u] : ¬ SEA (julianCentury (julianDay 44185 12 0 0)) 90
        (hourAngle (TST (julianCentury (julianDay 44185 12 0 0)) 12 0 0 0)) > 85),
      if_neg (by linarith only [hSEA_u] : ¬ SEA (julianCentury (julianDay 44185 12 0 0)) 90
        (hourAngle (TST (julianCentury (julianDay 44185 12 0 0)) 12 0 0 0)) > 5),
      if_neg (by linarith only [hSEA_u] : ¬ SEA (julianCentury (julianDay 44185 12 0 0)) 90
        (hourAngle (TST (julianCentury (julianDay 44185 12 0 0)) 12 0 0 0)) > -0.575)]
  have htan_le : tan (deg2rad (SEA (julianCentury (julianDay 44185 12 0 0)) 90
      (hourAngle (TST (julianCentury (julianDay 44185 12 0 0)) 12 0 0 0)))) ≤ -0.391 := by
    rw [hdeg, Real.tan_arcsin]
    have hs1 : Real.sqrt (1 - (sin (deg2rad (OC (julianCentury (julianDay 44185 12 0 0))))
        * sin (deg2rad (SAL (julianCentury (julianDay 44185 12 0 0))))) ^ 2) ≤ 1 := by
      refine Real.sqrt_le_one.2 ?_
      nlinarith only [sq_nonneg (sin (deg2rad (OC (julianCentury (julianDay 44185 12 0 0))))
        * sin (deg2rad (SAL (julianCentury (julianDay 44185 12 0 0)))))]
    have hs0 : 0 < Real.sqrt (1 - (sin (deg2rad (OC (julianCentury (julianDay 44185 12 0 0))))
        * sin (deg2rad (SAL (julianCentury (julianDay 44185 12 0 0))))) ^ 2) := by
      refine Real.sqrt_pos.2 ?_
      nlinarith only [hA3u, hA3l]
    rw [div_le_iff hs0]
    linarith only [hs1, hA3u,
      mul_le_mul_of_nonpos_left hs1 (by norm_num : (-0.391:ℝ) ≤ 0)]
  have hAAR_pos : 0 < AAR (SEA (julianCentury (julianDay 44185 12 0 0)) 90
      (hourAngle (TST (julianCentury (julianDay 44185 12 0 0)) 12 0 0 0))) := by
    rw [hAAR_eq]
    exact div_pos_of_neg_of_neg (by norm_num) (by linarith only [htan_le])
  have hAAR_le : AAR (SEA (julianCentury (julianDay 44185 12 0 0)) 90
      (hourAngle (TST (julianCentury (julianDay 44185 12 0 0)) 12 0 0 0))) ≤ 53.2 := by
    rw [hAAR_eq, div_le_iff_of_neg (by linarith only [htan_le])]
    linarith only [htan_le]
  exact ⟨hSEA_u, hSEA_l, ne_of_gt hcos_pos, ne_of_lt htan_neg, hAAR_pos, hAAR_le⟩

theorem solar_angleQ_fst (days : ℤ) (hour minute tz lat lon : ℝ) :
    (solar_angleQ days hour minute tz lat lon).1 = (do
      let sza ← SZAq (julianCentury (julianDay days hour minute tz)) lat
        (hourAngle (TST (julianCentury (julianDay days hour minute tz)) hour minute lon tz))
      let sea := 90 - sza
      let aar ← AARq sea
      pure (sea + aar / 3600) : Option ℝ) := rfl

theorem solar_angleQ_snd (days : ℤ) (hour minute tz lat lon : ℝ) :
    (solar_angleQ days hour minute tz lat lon).2 = (do
      let sza ← SZAq (julianCentury (julianDay days hour minute tz)) lat
        (hourAngle (TST (julianCentury (julianDay days hour minute tz)) hour minute lon tz))
      SAAq (julianCentury (julianDay days hour minute tz)) lat
        (hourAngle (TST (julianCentury (julianDay days hour minute tz)) hour minute lon tz))
        sza : Option ℝ) := rfl

/-- Claim C3 (counterexample): at the North Pole (lat = 90) on 2020-12-21
12:00 UTC (day count 44185, polar night), the hour-angle-span computation
does hit a domain condition — in exact arithmetic its divisor
`cos(lat)·cos(declination)` vanishes, so the checked model gives
`HASq = none` — yet the elevation returned by the program is not an error
value: even in the checked model it is `some` of exactly the straight-line
core's finite elevation.  The domain condition does not propagate to the
returned outputs. -/
theorem northpole_domain_error_not_propagated :
    HASq (julianCentury (julianDay 44185 12 0 0)) 90 = none ∧
    (solar_angleQ 44185 12 0 0 90 0).1 = some ((solar_angleCore 44185 12 0 0 90 0).1) := by
  have hcos90 : cos (deg2rad (90:ℝ)) = 0 := by
    rw [show deg2rad (90:ℝ) = π / 2 by unfold deg2rad; ring, Real.cos_pi_div_two]
  constructor
  · unfold HASq
    rw [SDq_eq]
    simp only [Option.bind_eq_bind, Option.some_bind]
    unfold divQ
    rw [if_pos (by rw [hcos90, zero_mul])]
    rfl
  · obtain ⟨hSEA_u, hSEA_l, hcosne, htanne, hAARpos, hAARle⟩ := pole_facts
    rw [solar_angleQ_fst, SZAq_eq]
    simp only [Option.bind_eq_bind, Option.some_bind]
    have hSEAdef : SEA (julianCentury (julianDay 44185 12 0 0)) 90
        (hourAngle (TST (julianCentury (julianDay 44185 12 0 0)) 12 0 0 0)) =
        90 - SZA (julianCentury (julianDay 44185 12 0 0)) 90
          (hourAngle (TST (julianCentury (julianDay 44185 12 0 0)) 12 0 0 0)) := rfl
    rw [← hSEAdef, AARq_eq_low (by linarith only [hSEA_u]) hcosne htanne]
    simp only [Option.bind_eq_bind, Option.some_bind]
    rw [solar_angleCore_fst]
    rfl

/-- Claim C3 (amended): at the North Pole on 2020-12-21 12:00 UTC the
returned elevation is a genuine finite value — negative (polar night) and
within [-90, 90] — while only the azimuth carries the domain condition
(`none` in the checked model), and that `none` comes from the azimuth
step's own zero divisor `cos(lat)·sin(zenith)`, not from the hour-angle
computation. -/
theorem northpole_elevation_finite_azimuth_none :
    (solar_angleCore 44185 12 0 0 90 0).1 < 0 ∧
    -90 ≤ (solar_angleCore 44185 12 0 0 90 0).1 ∧
    (solar_angleQ 44185 12 0 0 90 0).2 = none := by
  obtain ⟨hSEA_u, hSEA_l, hcosne, htanne, hAARpos, hAARle⟩ := pole_facts
  have hcore := solar_angleCore_fst 44185 12 0 0 90 0
  have hcos90 : cos (deg2rad (90:ℝ)) = 0 := by
    rw [show deg2rad (90:ℝ) = π / 2 by unfold deg2rad; ring, Real.cos_pi_div_two]
  refine ⟨?_, ?_, ?_⟩
  · rw [hcore]
    linarith only [hSEA_u, hAARle]
  · rw [hcore]
    linarith only [hSEA_l, hAARpos]
  · rw [solar_angleQ_snd, SZAq_eq]
    simp only [Option.bind_eq_bind, Option.some_bind]
    unfold SAAq
    rw [SDq_eq]
    simp only [Option.bind_eq_bind, Option.some_bind]
    unfold divQ
    rw [if_pos (by rw [hcos90, zero_mul])]
    rfl
